import Mathlib

/-!
# nymea: setup transactions, the date/time plugin, bus devices, the cloud authenticator

Shallow embedding of

* `libnymea-core/integrations/python/pythingsetupinfo.h` (`PyThingSetupInfo_finish`),
* `plugins/deviceplugins/datetime/deviceplugindatetime.cpp` (`DevicePluginDateTime`),
* `libnymea/hardware/spi/spidevice.cpp` (`SPIDevice`) and the bus manager that
  `libnymea/hardware/spi/spimanager.cpp` documents,
* `server/cloud/cloudauthenticator.cpp` (`CloudAuthenticator::startAuthentication`).

Pointers are natural numbers (addresses), `nullptr` is `none`, C `int` values are
integers inside `INT_MIN .. INT_MAX`, and a `QString` is its sequence of characters
(Qt compares the null `QString()` equal to the empty string, so both are `""`).
-/

namespace Nymea

/-! ## Python objects and `PyArg_ParseTuple(args, "i|s", ...)` -/

/-- Python objects, told apart as far as the format string `"i|s"` tells them apart:
`pyLong` is an `int` (`True` and `False` are the `int` objects 1 and 0, and an object
converted through `__index__` counts as its integer), `pyUnicode` a `str`, and
`pyOther` anything that is neither (a `float`, `bytes`, a list, ...). -/
inductive PyObject where
  | pyNone
  | pyLong (v : Int)
  | pyUnicode (s : String)
  | pyOther (tag : Nat)
  deriving DecidableEq, Repr

/-- Smallest value of a C `int`. -/
def INT_MIN : Int := -2147483648

/-- Largest value of a C `int`. -/
def INT_MAX : Int := 2147483647

/-- Format unit `i`: a Python `int` that fits a C `int`; anything else fails
(`TypeError`, or `OverflowError` when out of range). -/
def parseUnit_i : PyObject → Option Int
  | .pyLong v => if INT_MIN ≤ v ∧ v ≤ INT_MAX then some v else none
  | _ => none

/-- Format unit `s`: a `str` without an embedded null character, handed over as a
C string; anything else fails. -/
def parseUnit_s : PyObject → Option String
  | .pyUnicode s => if Char.ofNat 0 ∈ s.data then none else some s
  | _ => none

/-- The call `PyArg_ParseTuple(args, "i|s", &status, &message)`: one mandatory `int`,
one optional `str`. `none` is the return value 0; on success the second component
is `none` when `message` was left at its initial `nullptr`. -/
def PyArg_ParseTuple (args : List PyObject) : Option (Int × Option String) :=
  match args with
  | [a] =>
    match parseUnit_i a with
    | some status => some (status, none)
    | none => none
  | [a, b] =>
    match parseUnit_i a, parseUnit_s b with
    | some status, some message => some (status, some message)
    | _, _ => none
  | _ => none

/-! ## The runtime as seen from `finish` -/

/-- Address of a `ThingSetupInfo` object. -/
abbrev ThingSetupInfoPtr := Nat

/-- Identity of a configured thing (device). -/
abbrev ThingId := Nat

/-- Values of `Thing::ThingError`, carried as the integer of the enumerator. -/
abbrev ThingError := Int

/-- The conversion `static_cast<Thing::ThingError>(status)`: the integer is kept as it is. -/
def static_cast_ThingError (status : Int) : ThingError := status

/-- One event posted by `QMetaObject::invokeMethod(obj, member, Qt::QueuedConnection, args...)`. -/
structure QueuedInvocation where
  receiver : ThingSetupInfoPtr
  member : String
  thingError : ThingError
  displayMessage : String
  deriving DecidableEq, Repr

/-- Completion slot of a setup transaction. -/
inductive CompletionState where
  | Pending
  | Finished (status : ThingError) (message : String)
  deriving DecidableEq, Repr

/-- A setup transaction (`ThingSetupInfo`): the thing under setup and the completion slot. -/
structure SetupTransaction where
  thing : ThingId
  completion : CompletionState
  deriving DecidableEq, Repr

/-- Setup state machine of a device. -/
inductive SetupState where
  | Unconfigured
  | SettingUp
  | Configured
  | SetupFailed
  | Reconfiguring
  | Removed
  deriving DecidableEq, Repr

/-- Signals of the device manager that matter here (`devicemanager.h`). -/
inductive ManagerSignal where
  | deviceSetupFinished (device : ThingId) (status : ThingError)
  deriving DecidableEq, Repr

/-- The error indicator of the Python interpreter: exception type and text. -/
structure PyErr where
  type : String
  text : String
  deriving DecidableEq, Repr

/-- Everything `finish` could touch: the interpreter's error indicator, the posted
events of the control thread (oldest first), the transaction table, the device
states and the signals emitted so far. -/
structure Runtime where
  pyErr : Option PyErr
  eventQueue : List QueuedInvocation
  transactions : List (ThingSetupInfoPtr × SetupTransaction)
  devices : List (ThingId × SetupState)
  emitted : List ManagerSignal
  deriving DecidableEq, Repr

/-- The Python object `nymea.ThingSetupInfo`: `info` is the transaction reference
(`nullptr` once cleared), `pyThing` the thing being set up. -/
structure PyThingSetupInfo where
  info : Option ThingSetupInfoPtr
  pyThing : Option Nat
  deriving DecidableEq, Repr

/-- The text of the `TypeError` raised for a call that does not parse. -/
def invalidArgumentsText : String :=
  "Invalid arguments in finish call. Expected: finish(ThingError, message = \"\""

/-- `PyErr_SetString(PyExc_TypeError, text)`. -/
def PyErr_SetString (type text : String) (w : Runtime) : Runtime :=
  { w with pyErr := some ⟨type, text⟩ }

/-- `QMetaObject::invokeMethod(receiver, member, Qt::QueuedConnection, ...)`: nothing
is called now; the call is posted as an event behind the events already waiting for
the thread the receiver lives in, the control thread. -/
def invokeMethodQueued (receiver : ThingSetupInfoPtr) (member : String)
    (thingError : ThingError) (displayMessage : String) (w : Runtime) : Runtime :=
  { w with eventQueue := w.eventQueue ++ [⟨receiver, member, thingError, displayMessage⟩] }

/-- `PyThingSetupInfo_finish(self, args)`. The first component is the returned
`PyObject*` (`none` is `nullptr`, an exception is pending, `pyNone` is
`Py_RETURN_NONE`). `displayMessage` is `QString(message)` for a given message and
`QString()`, the empty string, for the `nullptr` of an absent one. -/
def PyThingSetupInfo_finish (self : PyThingSetupInfo) (args : List PyObject)
    (w : Runtime) : Option PyObject × Runtime :=
  match PyArg_ParseTuple args with
  | none => (none, PyErr_SetString "TypeError" invalidArgumentsText w)
  | some (status, message) =>
    let thingError := static_cast_ThingError status
    let displayMessage : String :=
      match message with
      | some m => m
      | none => ""
    let w1 :=
      match self.info with
      | some info => invokeMethodQueued info "finish" thingError displayMessage w
      | none => w
    (some PyObject.pyNone, w1)

/-- The arguments of `finish(status)` and `finish(status, message)`. -/
def finishArgs (status : Int) (message : Option String) : List PyObject :=
  match message with
  | none => [PyObject.pyLong status]
  | some m => [PyObject.pyLong status, PyObject.pyUnicode m]

/-- A call is well formed when the status fits a C `int` and the message, if any,
has no embedded null character. -/
def WellFormed (status : Int) (message : Option String) : Prop :=
  (INT_MIN ≤ status ∧ status ≤ INT_MAX) ∧
    match message with
    | none => True
    | some m => Char.ofNat 0 ∉ m.data

instance (status : Int) (message : Option String) : Decidable (WellFormed status message) := by
  unfold WellFormed
  cases message <;> exact inferInstance

/-- The message a call carries: the given one, or the empty string. -/
def messageOf (message : Option String) : String :=
  match message with
  | some m => m
  | none => ""

/-! ## The control thread's side of a completion -/

/-- The transaction an address refers to, if it is in the table. -/
def lookupTransaction (ptr : ThingSetupInfoPtr) :
    List (ThingSetupInfoPtr × SetupTransaction) → Option SetupTransaction
  | [] => none
  | (p, t) :: rest => if p = ptr then some t else lookupTransaction ptr rest

/-- Fill the completion slot of the transaction at an address. -/
def completeTransaction (ptr : ThingSetupInfoPtr) (status : ThingError) (message : String) :
    List (ThingSetupInfoPtr × SetupTransaction) → List (ThingSetupInfoPtr × SetupTransaction)
  | [] => []
  | (p, t) :: rest =>
    if p = ptr then (p, { t with completion := CompletionState.Finished status message }) :: rest
    else (p, t) :: completeTransaction ptr status message rest

/-- Move a device of the device set to a new setup state; a device that is not in
the set is not created. -/
def setSetupState (thing : ThingId) (st : SetupState) :
    List (ThingId × SetupState) → List (ThingId × SetupState)
  | [] => []
  | (d, old) :: rest =>
    if d = thing then (d, st) :: rest else (d, old) :: setSetupState thing st rest

/-- Modelled from the spec: `ThingSetupInfo::finish` lives in
integrations/thingsetupinfo.cpp, which is not among the sources; only its caller
`PyThingSetupInfo_finish` is. The spec calls the transaction a single-assignment
completion slot: the first completion is stored, moves the device out of setup
(`Configured` for `NoError`, which is 0, `SetupFailed` otherwise) and emits
`deviceSetupFinished`; a completion of a finished transaction is a logged no-op, and
so is one for a transaction that was discarded. -/
def ThingSetupInfo_finish (info : ThingSetupInfoPtr) (status : ThingError) (message : String)
    (w : Runtime) : Runtime :=
  match lookupTransaction info w.transactions with
  | none => w
  | some t =>
    match t.completion with
    | CompletionState.Finished _ _ => w
    | CompletionState.Pending =>
      { w with
        transactions := completeTransaction info status message w.transactions
        devices := setSetupState t.thing
          (if status = 0 then SetupState.Configured else SetupState.SetupFailed) w.devices
        emitted := w.emitted ++ [ManagerSignal.deviceSetupFinished t.thing status] }

/-- Modelled from the spec: delivery of one posted event on the control thread, the
queued call of the member `finish` being the only kind of event posted here. -/
def deliver (e : QueuedInvocation) (w : Runtime) : Runtime :=
  if e.member = "finish" then ThingSetupInfo_finish e.receiver e.thingError e.displayMessage w
  else w

/-- Modelled from the spec: one scheduling step of the control thread takes the oldest
posted event off the queue and delivers it. -/
def processEvent (w : Runtime) : Runtime :=
  match w.eventQueue with
  | [] => w
  | e :: rest => deliver e { w with eventQueue := rest }

/-- Modelled from the spec: `k` scheduling steps of the control thread. -/
def processEvents : Nat → Runtime → Runtime
  | 0, w => w
  | k + 1, w => processEvents k (processEvent w)

/-- Modelled from the spec: the control thread works off every event posted so far. -/
def drain (w : Runtime) : Runtime :=
  processEvents w.eventQueue.length w

/-- Modelled from the spec: thing.h, which declares `Thing::ThingError`, is not among
the sources. These are the kinds of the taxonomy of section 7 of the spec, in its order. -/
inductive ThingErrorKind where
  | NoError
  | ClassNotFound
  | PluginNotFound
  | HardwareNotAvailable
  | HardwareFailure
  | MissingParameter
  | InvalidParameter
  | DuplicateUuid
  | DeviceNotFound
  | DeviceInUse
  | CreationMethodNotSupported
  | SetupFailed
  | AsyncSetupInProgress
  | AuthenticationFailure
  | Unsupported
  deriving DecidableEq, Repr

/-- Modelled from the spec: every kind of the taxonomy. -/
def allThingErrorKinds : List ThingErrorKind :=
  [.NoError, .ClassNotFound, .PluginNotFound, .HardwareNotAvailable, .HardwareFailure,
   .MissingParameter, .InvalidParameter, .DuplicateUuid, .DeviceNotFound, .DeviceInUse,
   .CreationMethodNotSupported, .SetupFailed, .AsyncSetupInProgress,
   .AuthenticationFailure, .Unsupported]

/-- Modelled from the spec: the integer of a kind, numbered from 0 in declaration
order as a C++ enumeration without explicit values is. -/
def ThingErrorKind.toInt (k : ThingErrorKind) : Int :=
  (allThingErrorKinds.indexOf k : Nat)

/-- A value of `Thing::ThingError` is a defined member when it is the integer of a kind. -/
def isDefinedThingError (v : ThingError) : Bool :=
  allThingErrorKinds.any (fun k => k.toInt == v)

/-- A sequence of calls of `finish`, each on its own handle, one after the other. -/
def finishAll : List (PyThingSetupInfo × List PyObject) → Runtime → Runtime
  | [], w => w
  | (self, args) :: rest, w => finishAll rest (PyThingSetupInfo_finish self args w).2

/-- The queued invocation a well-formed call on a live transaction stands for. -/
def invocationOf (info : ThingSetupInfoPtr) (status : Int) (message : Option String) :
    QueuedInvocation :=
  ⟨info, "finish", status, messageOf message⟩

/-! ## The date/time plugin -/

/-- Modelled from the spec: plugininfo.h, generated from the plugin's JSON file, is not
among the sources. It declares `todayDeviceClassId` and `alarmDeviceClassId`, two
different UUID constants; every other device class is `other`. -/
inductive DeviceClassId where
  | today
  | alarm
  | other (uuid : Nat)
  deriving DecidableEq, Repr

/-- The device class of the date device. -/
def todayDeviceClassId : DeviceClassId := DeviceClassId.today

/-- The device class of an alarm. -/
def alarmDeviceClassId : DeviceClassId := DeviceClassId.alarm

/-- The values a `QVariant` holds in this plugin. -/
inductive QVariant where
  | invalid
  | bool (b : Bool)
  | int (n : Int)
  | string (s : String)
  | byteArray (s : String)
  deriving DecidableEq, Repr

/-- The conversion of a text by `QVariant::toBool`: false for the empty text, "0" and "false". -/
def textToBool (s : String) : Bool :=
  !(s.isEmpty || s.toLower == "0" || s.toLower == "false")

/-- `QChar::isSpace()`: the space, the controls U+0009 to U+000D, U+0085, U+00A0 and
the characters of the Unicode categories Zs, Zl and Zp. -/
def qCharIsSpace (c : Char) : Bool :=
  c.toNat == 0x20 || (0x09 ≤ c.toNat && c.toNat ≤ 0x0d) || c.toNat == 0x85 ||
    c.toNat == 0xa0 || c.toNat == 0x1680 || (0x2000 ≤ c.toNat && c.toNat ≤ 0x200a) ||
    c.toNat == 0x2028 || c.toNat == 0x2029 || c.toNat == 0x202f || c.toNat == 0x205f ||
    c.toNat == 0x3000

/-- The white space of `ascii_isspace`: the space and the controls U+0009 to U+000D. -/
def asciiIsSpace (c : Char) : Bool :=
  c.toNat == 0x20 || (0x09 ≤ c.toNat && c.toNat ≤ 0x0d)

/-- The number a non-empty run of decimal digits spells. -/
def digitsValue (ds : List Char) : Option Nat :=
  if ds ≠ [] ∧ ds.all Char.isDigit then
    some (ds.foldl (fun n c => n * 10 + (c.toNat - 48)) 0)
  else none

/-- The smallest `qlonglong`. -/
def LLONG_MIN : Int := -9223372036854775808

/-- The largest `qlonglong`. -/
def LLONG_MAX : Int := 9223372036854775807

/-- The number `qstrtoll` reads in base 10 from a text it has to use up: one optional
sign and a non-empty run of decimal digits; no number if the text is of another shape
or the number does not fit a `qlonglong`. -/
def signedDigits (cs : List Char) : Option Int :=
  let spelled : Option Int :=
    match cs with
    | '-' :: ds => (digitsValue ds).map (fun n => -(n : Int))
    | '+' :: ds => (digitsValue ds).map (fun n => (n : Int))
    | ds => (digitsValue ds).map (fun n => (n : Int))
  match spelled with
  | some n => if LLONG_MIN ≤ n ∧ n ≤ LLONG_MAX then some n else none
  | none => none

/-- The characters of a text without the leading and trailing ones of a kind. -/
def stripped (isSpace : Char → Bool) (cs : List Char) : List Char :=
  ((cs.dropWhile isSpace).reverse.dropWhile isSpace).reverse

/-- `QString::toLongLong()` in base 10, by the C locale: white space in the sense of
`QChar::isSpace` is dropped at both ends, the minus sign U+2212 counts as `-`, and the
rest has to be one optional sign and decimal digits spelling a `qlonglong`. -/
def stringToLongLong (s : String) : Option Int :=
  signedDigits
    ((stripped qCharIsSpace s.data).map (fun c => if c.toNat = 0x2212 then '-' else c))

/-- `QByteArray::toLongLong()` in base 10: the bytes up to the first null byte are
read; ASCII white space may lead and trail, and the rest has to be one optional sign
and decimal digits spelling a `qlonglong`. -/
def byteArrayToLongLong (s : String) : Option Int :=
  signedDigits (stripped asciiIsSpace (s.data.takeWhile (fun c => c.toNat != 0)))

/-- The conversion `int(qlonglong)`: the low 32 bits, read as a two's complement number. -/
def narrowToInt (n : Int) : Int :=
  (n + 2147483648) % 4294967296 - 2147483648

/-- The conversion of a text by `QVariant::toInt`: the text is converted by
`QString::toLongLong`, 0 standing for a text that spells no `qlonglong`, and the
result is narrowed to `int`. -/
def textToInt (s : String) : Int :=
  match stringToLongLong s with
  | some n => narrowToInt n
  | none => narrowToInt 0

/-- The conversion of a byte array by `QVariant::toInt`: the bytes are converted by
`QByteArray::toLongLong`, 0 standing for bytes that spell no `qlonglong`, and the
result is narrowed to `int`. -/
def byteArrayToInt (s : String) : Int :=
  match byteArrayToLongLong s with
  | some n => narrowToInt n
  | none => narrowToInt 0

/-- `QVariant::toBool()`. -/
def QVariant.toBool : QVariant → Bool
  | .invalid => false
  | .bool b => b
  | .int n => n != 0
  | .string s => textToBool s
  | .byteArray s => textToBool s

/-- `QVariant::toInt()`: the held `int` itself; any other value is converted to a
`qlonglong` (a boolean to 0 or 1, a text or byte array by its `toLongLong`, 0 for
what converts to none) and narrowed to `int`. -/
def QVariant.toInt : QVariant → Int
  | .invalid => 0
  | .bool b => if b then 1 else 0
  | .int n => n
  | .string s => textToInt s
  | .byteArray s => byteArrayToInt s

/-- `QVariant::toString()`. -/
def QVariant.toString : QVariant → String
  | .invalid => ""
  | .bool b => if b then "true" else "false"
  | .int n => ToString.toString n
  | .string s => s
  | .byteArray s => s

/-- A named parameter value: `Param(name, value)`. -/
structure Param where
  name : String
  value : QVariant
  deriving DecidableEq, Repr

/-- Address of a `Device` object: what a `Device*` holds. -/
abbrev DevicePtr := Nat

/-- Modelled from the spec: device.h is not among the sources. A configured device
as the plugin reads it: the address of the object, the id of its device class and
its ordered parameter values. -/
structure Device where
  addr : DevicePtr
  deviceClassId : DeviceClassId
  params : List Param
  deriving DecidableEq, Repr

/-- Modelled from the spec: `Device::paramValue(name)` of device.cpp, which is not
among the sources: the value of the first parameter of that name, an invalid variant
if there is none. -/
def Device.paramValue (device : Device) (name : String) : QVariant :=
  match device.params.find? (fun p => p.name == name) with
  | some p => p.value
  | none => QVariant.invalid

/-- A `QTimeZone`: its id and whether the system knows it. -/
structure QTimeZone where
  id : String
  isValid : Bool
  deriving DecidableEq, Repr

/-- The remainder of the C++ operator `%` for a positive divisor: it takes the sign
of the dividend. -/
def cRemainder (a b : Int) : Int :=
  if 0 ≤ a then a % b else -((-a) % b)

/-- A `QDate`: the Julian day number it holds, `none` for the null date. -/
structure QDate where
  jd : Option Int
  deriving DecidableEq, Repr

/-- `QDate::dayOfWeek()`: 0 for the null date. -/
def QDate.dayOfWeek (d : QDate) : Int :=
  match d.jd with
  | none => 0
  | some jd => if jd ≥ 0 then cRemainder jd 7 + 1 else cRemainder (jd + 1) 7 + 7

/-- The year, month and day of a Julian day number in Qt's calendar, which has no
year 0. The divisions round down. -/
def getDateFromJulianDay (julianDay : Int) : Int × Int × Int :=
  let a := julianDay + 32044
  let b := (4 * a + 3) / 146097
  let c := a - (146097 * b) / 4
  let d := (4 * c + 3) / 1461
  let e := c - (1461 * d) / 4
  let m := (5 * e + 2) / 153
  let day := e - (153 * m + 2) / 5 + 1
  let month := m + 3 - 12 * (m / 10)
  let year := 100 * b + d - 4800 + m / 10
  (if year ≤ 0 then year - 1 else year, month, day)

/-- `QDate::year()`: 0 for the null date. -/
def QDate.year (d : QDate) : Int :=
  match d.jd with
  | none => 0
  | some jd => (getDateFromJulianDay jd).1

/-- `QDate::month()`: 0 for the null date. -/
def QDate.month (d : QDate) : Int :=
  match d.jd with
  | none => 0
  | some jd => (getDateFromJulianDay jd).2.1

/-- `QDate::day()`: 0 for the null date. -/
def QDate.day (d : QDate) : Int :=
  match d.jd with
  | none => 0
  | some jd => (getDateFromJulianDay jd).2.2

/-- A `QTime` as far as the plugin reads it: hour and minute, both -1 for the null time. -/
structure QTime where
  hour : Int
  minute : Int
  deriving DecidableEq, Repr

/-- A `QDateTime`: the instant in milliseconds since the epoch (`none` for a date-time
that is not valid) and the date and the time of day it shows in its time zone. -/
structure QDateTime where
  msecsSinceEpoch : Option Int
  date : QDate
  time : QTime
  deriving DecidableEq, Repr

/-- The date-time `QDateTime()`. -/
def QDateTime.null : QDateTime := ⟨none, ⟨none⟩, ⟨-1, -1⟩⟩

/-- Modelled from the spec: alarm.h is not among the sources. An `Alarm` object is
the record of what its setters were given last; the sun times of a new alarm are
null. -/
structure Alarm where
  name : String
  monday : Bool
  tuesday : Bool
  wednesday : Bool
  thursday : Bool
  friday : Bool
  saturday : Bool
  sunday : Bool
  minutes : Int
  hours : Int
  timeType : String
  offset : Int
  dusk : QDateTime
  sunrise : QDateTime
  noon : QDateTime
  dawn : QDateTime
  sunset : QDateTime
  deriving DecidableEq, Repr

/-- Modelled from the spec: devicedescriptor.h is not among the sources. A candidate
device: the device class, the title and the description its constructor was given,
and the parameters set on it. The descriptor id that the constructor draws at random
is left out. -/
structure DeviceDescriptor where
  deviceClassId : DeviceClassId
  title : String
  description : String
  params : List Param
  deriving DecidableEq, Repr

/-- The values of `DeviceManager::DeviceSetupStatus`, the result type of `setupDevice`. -/
inductive DeviceSetupStatus where
  | DeviceSetupStatusSuccess
  | DeviceSetupStatusFailure
  | DeviceSetupStatusAsync
  deriving DecidableEq, Repr

/-- Modelled from the spec: plugininfo.h is not among the sources. The ids of the
state types of the date device, distinct UUID constants. -/
inductive StateTypeId where
  | dayStateTypeId
  | monthStateTypeId
  | yearStateTypeId
  | weekdayStateTypeId
  | weekdayNameStateTypeId
  | monthNameStateTypeId
  | weekendStateTypeId
  | duskStateTypeId
  | sunriseStateTypeId
  | noonStateTypeId
  | dawnStateTypeId
  | sunsetStateTypeId
  deriving DecidableEq, Repr

/-- Modelled from the spec: plugininfo.h is not among the sources. The ids of the
event types of the plugin, distinct UUID constants. -/
inductive EventTypeId where
  | alarmEventTypeId
  | duskEventTypeId
  | sunriseEventTypeId
  | noonEventTypeId
  | dawnEventTypeId
  | sunsetEventTypeId
  deriving DecidableEq, Repr

/-- The items of a `QUrlQuery`, in the order they were added. -/
abbrev QUrlQuery := List (String × String)

/-- Signals the plugin sends to the runtime, the signal `timeDataChanged` it sends to
itself, and the requests for the sun times it hands to `networkManagerGet`, each with
the reply object returned for it, its URL and the query set on the URL. -/
inductive PluginSignal where
  | autoDevicesAppeared (deviceClassId : DeviceClassId) (descriptors : List DeviceDescriptor)
  | emitEvent (eventTypeId : EventTypeId) (device : DevicePtr)
  | timeDataChanged
  | networkManagerGet (reply : Nat) (url : String) (query : QUrlQuery)
  deriving DecidableEq, Repr

/-- `QHash::value(key)`, `none` for a key without a value. A hash filled by `insert`
holds one value per key and is kept as a list of pairs. -/
def hashValue {α : Type} (key : DevicePtr) : List (DevicePtr × α) → Option α
  | [] => none
  | (k, v) :: rest => if k = key then some v else hashValue key rest

/-- The hash without the key, as `QHash::take(key)` and `QHash::remove(key)` leave it. -/
def hashRemove {α : Type} (key : DevicePtr) (h : List (DevicePtr × α)) : List (DevicePtr × α) :=
  h.filter (fun p => p.1 != key)

/-- `QHash::insert(key, value)`: the value of a key that is already there is replaced. -/
def hashInsert {α : Type} (key : DevicePtr) (value : α) (h : List (DevicePtr × α)) :
    List (DevicePtr × α) :=
  (key, value) :: hashRemove key h

/-- The state values written to devices: device, state type, value. A state that
was never written holds the default of its device class and has no entry. -/
abbrev StateValues := List (DevicePtr × StateTypeId × QVariant)

/-- Whether an entry of the written state values is the state of that type of the device. -/
def isStateOf (device : DevicePtr) (stateTypeId : StateTypeId)
    (e : DevicePtr × StateTypeId × QVariant) : Bool :=
  decide (e.1 = device ∧ e.2.1 = stateTypeId)

/-- `Device::stateValue(stateTypeId)` as far as it was written: `none` for a state
that still holds its default. -/
def writtenStateValue (device : DevicePtr) (stateTypeId : StateTypeId) :
    StateValues → Option QVariant
  | [] => none
  | e :: rest =>
    if isStateOf device stateTypeId e then some e.2.2
    else writtenStateValue device stateTypeId rest

/-- Modelled from the spec: `Device::setStateValue(stateTypeId, value)` of device.cpp,
which is not among the sources: the state holds the new value afterwards. -/
def setStateValue (device : DevicePtr) (stateTypeId : StateTypeId) (value : QVariant)
    (values : StateValues) : StateValues :=
  (device, stateTypeId, value) :: values.filter (fun e => !(isStateOf device stateTypeId e))

/-- The members of `DevicePluginDateTime`, the signals it has emitted and the state
values it has written to devices. The timer is kept as the flag whether it is
running. -/
structure DevicePluginDateTime where
  m_timerActive : Bool
  m_todayDevice : Option DevicePtr
  m_timeZone : QTimeZone
  m_currentDateTime : QDateTime
  m_alarms : List (DevicePtr × Alarm)
  m_dusk : QDateTime
  m_sunrise : QDateTime
  m_noon : QDateTime
  m_dawn : QDateTime
  m_sunset : QDateTime
  m_locationReplies : List Nat
  m_timeReplies : List Nat
  emitted : List PluginSignal
  stateValues : StateValues
  deriving DecidableEq, Repr

/-- The alarm `setupDevice` builds for a device: `new Alarm(this)` followed by the
twelve setters. -/
def alarmOf (device : Device) : Alarm :=
  { name := (device.paramValue "name").toString
    monday := (device.paramValue "monday").toBool
    tuesday := (device.paramValue "tuesday").toBool
    wednesday := (device.paramValue "wednesday").toBool
    thursday := (device.paramValue "thursday").toBool
    friday := (device.paramValue "friday").toBool
    saturday := (device.paramValue "saturday").toBool
    sunday := (device.paramValue "sunday").toBool
    minutes := (device.paramValue "minutes").toInt
    hours := (device.paramValue "hours").toInt
    timeType := (device.paramValue "time type").toString
    offset := (device.paramValue "offset").toInt
    dusk := QDateTime.null
    sunrise := QDateTime.null
    noon := QDateTime.null
    dawn := QDateTime.null
    sunset := QDateTime.null }

/-- `DevicePluginDateTime::setupDevice(device)`. -/
def setupDevice (s : DevicePluginDateTime) (device : Device) :
    DeviceSetupStatus × DevicePluginDateTime :=
  -- check timezone
  if !s.m_timeZone.isValid then
    (DeviceSetupStatus.DeviceSetupStatusFailure, s)
  else
    -- date; `none` is the return of a failure from inside the block
    let afterDate : Option DevicePluginDateTime :=
      if device.deviceClassId = todayDeviceClassId then
        if s.m_todayDevice ≠ none then none
        else some { s with m_todayDevice := some device.addr }
      else some s
    match afterDate with
    | none => (DeviceSetupStatus.DeviceSetupStatusFailure, s)
    | some s1 =>
      -- alarm
      let s2 :=
        if device.deviceClassId = alarmDeviceClassId then
          { s1 with m_alarms := hashInsert device.addr (alarmOf device) s1.m_alarms }
        else s1
      (DeviceSetupStatus.DeviceSetupStatusSuccess, { s2 with m_timerActive := true })

/-- `DevicePluginDateTime::startMonitoringAutoDevices()`; `myDevices` is what
`myDevices()` returns, the configured devices of this plugin. -/
def startMonitoringAutoDevices (s : DevicePluginDateTime) (myDevices : List Device) :
    DevicePluginDateTime :=
  if myDevices.any (fun device => device.deviceClassId = todayDeviceClassId) then
    s
  else
    let dateDescriptor : DeviceDescriptor :=
      { deviceClassId := todayDeviceClassId
        title := "Date"
        description := s.m_timeZone.id
        params := [] }
    let params : List Param := [] ++ [⟨"name", QVariant.byteArray s.m_timeZone.id⟩]
    let dateDescriptor := { dateDescriptor with params := params }
    { s with emitted :=
        s.emitted ++ [PluginSignal.autoDevicesAppeared todayDeviceClassId ([] ++ [dateDescriptor])] }

/-- `DevicePluginDateTime::deviceRemoved(device)`; `myDevices` is what `myDevices()`
returns during the call. `none` is the call of `deleteLater` through the null
pointer that `m_alarms.take` returns for a device without an alarm. -/
def deviceRemoved (s : DevicePluginDateTime) (myDevices : List Device) (device : Device) :
    Option DevicePluginDateTime :=
  -- check if we still need the timer
  let s1 := if myDevices.length = 0 then { s with m_timerActive := false } else s
  -- date
  let s2 :=
    if device.deviceClassId = todayDeviceClassId then { s1 with m_todayDevice := none } else s1
  -- alarm
  if device.deviceClassId = alarmDeviceClassId then
    match hashValue device.addr s2.m_alarms with
    | none => none
    | some _ =>
      some (startMonitoringAutoDevices
        { s2 with m_alarms := hashRemove device.addr s2.m_alarms } myDevices)
  else
    some (startMonitoringAutoDevices s2 myDevices)

/-- What the slots run by one tick of the timer read from outside the plugin: the
readings of `QDateTime::currentDateTime().toTimeZone(m_timeZone)` taken by
`onTimeout`, `onDayChanged` and `onMinuteChanged`, the alarm devices that
`deviceManager()->findConfiguredDevices(alarmDeviceClassId)` returns, whether
`Alarm::validate` and `Alarm::validateTimes` (alarm.cpp, not among the sources) emit
the signal `alarm()` for an alarm at a time, the names `QDate::longDayName` and
`QDate::longMonthName` give in the locale, and the reply that `networkManagerGet`
returns. -/
structure TickInputs where
  zoneTime : QDateTime
  dayZoneTime : QDateTime
  minuteZoneTime : QDateTime
  configuredAlarmDevices : List Device
  validate : Alarm → QDateTime → Bool
  validateTimes : Alarm → QDateTime → Bool
  longDayName : Int → String
  longMonthName : Int → String
  locationReply : Nat

/-- `emit emitEvent(Event(eventTypeId, device->id()))`. -/
def emitEvent (eventTypeId : EventTypeId) (device : DevicePtr) (s : DevicePluginDateTime) :
    DevicePluginDateTime :=
  { s with emitted := s.emitted ++ [PluginSignal.emitEvent eventTypeId device] }

/-- `DevicePluginDateTime::onAlarm()`, run for the signal `alarm()` of the alarm of
the device: `m_alarms.key(alarm)` is that device. -/
def onAlarm (device : DevicePtr) (s : DevicePluginDateTime) : DevicePluginDateTime :=
  emitEvent EventTypeId.alarmEventTypeId device s

/-- `DevicePluginDateTime::searchGeoLocation()`. -/
def searchGeoLocation (reply : Nat) (s : DevicePluginDateTime) : DevicePluginDateTime :=
  if s.m_todayDevice = none then s
  else { s with m_locationReplies := s.m_locationReplies ++ [reply] }

/-- `DevicePluginDateTime::onDayChanged()`; `zoneTime` is the current time in the
time zone of the plugin. -/
def onDayChanged (longDayName longMonthName : Int → String) (zoneTime : QDateTime)
    (s : DevicePluginDateTime) : DevicePluginDateTime :=
  match s.m_todayDevice with
  | none => s
  | some today =>
    let v1 := setStateValue today StateTypeId.dayStateTypeId
      (QVariant.int zoneTime.date.day) s.stateValues
    let v2 := setStateValue today StateTypeId.monthStateTypeId
      (QVariant.int zoneTime.date.month) v1
    let v3 := setStateValue today StateTypeId.yearStateTypeId
      (QVariant.int zoneTime.date.year) v2
    let v4 := setStateValue today StateTypeId.weekdayStateTypeId
      (QVariant.int zoneTime.date.dayOfWeek) v3
    let v5 := setStateValue today StateTypeId.weekdayNameStateTypeId
      (QVariant.string (longDayName zoneTime.date.dayOfWeek)) v4
    let v6 := setStateValue today StateTypeId.monthNameStateTypeId
      (QVariant.string (longMonthName zoneTime.date.month)) v5
    let v7 :=
      if zoneTime.date.dayOfWeek = 6 ∨ zoneTime.date.dayOfWeek = 7 then
        setStateValue today StateTypeId.weekendStateTypeId (QVariant.bool true) v6
      else
        setStateValue today StateTypeId.weekendStateTypeId (QVariant.bool false) v6
    { s with stateValues := v7 }

/-- `DevicePluginDateTime::onHourChanged()`; the time it reads is only logged. -/
def onHourChanged (inp : TickInputs) (s : DevicePluginDateTime) : DevicePluginDateTime :=
  searchGeoLocation inp.locationReply s

/-- The loop over the configured alarm devices in `onMinuteChanged` and `onTimeout`:
the alarm of each device is looked up in `m_alarms` and validated, and `onAlarm`
runs when it emits `alarm()`. `none` is the call through the null pointer that
`m_alarms.value` returns for a device without an alarm. -/
def validateAlarms (fires : Alarm → QDateTime → Bool) (zoneTime : QDateTime) :
    List Device → DevicePluginDateTime → Option DevicePluginDateTime
  | [], s => some s
  | device :: rest, s =>
    match hashValue device.addr s.m_alarms with
    | none => none
    | some alarm =>
      validateAlarms fires zoneTime rest (if fires alarm zoneTime then onAlarm device.addr s else s)

/-- `DevicePluginDateTime::onMinuteChanged()`. -/
def onMinuteChanged (inp : TickInputs) (s : DevicePluginDateTime) :
    Option DevicePluginDateTime :=
  validateAlarms inp.validate inp.minuteZoneTime inp.configuredAlarmDevices s

/-- `DevicePluginDateTime::validateTimeTypes(dateTime)`; two date-times are equal
when they are the same instant. -/
def validateTimeTypes (dateTime : QDateTime) (s : DevicePluginDateTime) :
    DevicePluginDateTime :=
  match s.m_todayDevice with
  | none => s
  | some today =>
    if dateTime.msecsSinceEpoch = s.m_dusk.msecsSinceEpoch then
      emitEvent EventTypeId.duskEventTypeId today s
    else if dateTime.msecsSinceEpoch = s.m_sunrise.msecsSinceEpoch then
      emitEvent EventTypeId.sunriseEventTypeId today s
    else if dateTime.msecsSinceEpoch = s.m_noon.msecsSinceEpoch then
      emitEvent EventTypeId.noonEventTypeId today s
    else if dateTime.msecsSinceEpoch = s.m_dawn.msecsSinceEpoch then
      emitEvent EventTypeId.dawnEventTypeId today s
    else if dateTime.msecsSinceEpoch = s.m_sunset.msecsSinceEpoch then
      emitEvent EventTypeId.sunsetEventTypeId today s
    else s

/-- `DevicePluginDateTime::onTimeout()`. The signals `dayChanged`, `hourChanged` and
`minuteChanged` are connected to the slots of the same object, which run inside the
`emit`. -/
def onTimeout (inp : TickInputs) (s : DevicePluginDateTime) : Option DevicePluginDateTime :=
  let zoneTime := inp.zoneTime
  let s1 :=
    if zoneTime.date ≠ s.m_currentDateTime.date then
      onDayChanged inp.longDayName inp.longMonthName inp.dayZoneTime s
    else s
  let s2 :=
    if zoneTime.time.hour ≠ s.m_currentDateTime.time.hour then onHourChanged inp s1 else s1
  let s3 :=
    if zoneTime.time.minute ≠ s.m_currentDateTime.time.minute then onMinuteChanged inp s2
    else some s2
  match s3 with
  | none => none
  | some s3 =>
    match validateAlarms inp.validateTimes zoneTime inp.configuredAlarmDevices s3 with
    | none => none
    | some s4 =>
      -- just store for compairing
      some { validateTimeTypes zoneTime s4 with m_currentDateTime := zoneTime }

/-- `QVariant::toByteArray()`. -/
def QVariant.toByteArray : QVariant → String
  | .invalid => ""
  | .bool b => if b then "true" else "false"
  | .int n => ToString.toString n
  | .string s => s
  | .byteArray s => s

/-- `QTimeZone(ianaId)`: the zone of that id if it is one of the ids available on the
system, the invalid zone with the empty id otherwise. -/
def QTimeZone.fromId (availableTimeZoneIds : List String) (ianaId : String) : QTimeZone :=
  if ianaId ∈ availableTimeZoneIds then ⟨ianaId, true⟩ else ⟨"", false⟩

/-- `DevicePluginDateTime::onConfigValueChanged(paramName, value)`;
`availableTimeZoneIds` is what `QTimeZone::availableTimeZoneIds()` lists. The time
read in the branch of a valid zone is only logged. -/
def onConfigValueChanged (availableTimeZoneIds : List String) (inp : TickInputs)
    (_paramName : String) (value : QVariant) (s : DevicePluginDateTime) :
    Option DevicePluginDateTime :=
  let newZone := QTimeZone.fromId availableTimeZoneIds value.toByteArray
  let s1 := if newZone.isValid then { s with m_timeZone := newZone } else s
  -- update everything with the new timezone
  onTimeout inp s1

/-- The values of `QVariant::Type` used for parameter types. -/
inductive QVariantType where
  | Bool
  | Int
  | String
  deriving DecidableEq, Repr

/-- Modelled from the spec: paramtype.h is not among the sources. A parameter type:
the name, the value type and the default value its constructor was given, and the
allowed values set on it. -/
structure ParamType where
  name : String
  type : QVariantType
  defaultValue : QVariant
  allowedValues : List QVariant
  deriving DecidableEq, Repr

/-- `DevicePluginDateTime::configurationDescription()`, a `const` member function;
`availableTimeZoneIds` is what `QTimeZone::availableTimeZoneIds()` lists. -/
def configurationDescription (_s : DevicePluginDateTime) (availableTimeZoneIds : List String) :
    List ParamType :=
  let timezoneParamType : ParamType :=
    ⟨"timezone", QVariantType.String, QVariant.string "Europe/Vienna", []⟩
  let allowedValues : List QVariant :=
    availableTimeZoneIds.foldl (fun acc timeZone => acc ++ [QVariant.byteArray timeZone]) []
  let timezoneParamType := { timezoneParamType with allowedValues := allowedValues }
  [] ++ [timezoneParamType]

/-- The weekdays. -/
inductive Weekday where
  | Monday
  | Tuesday
  | Wednesday
  | Thursday
  | Friday
  | Saturday
  | Sunday
  deriving DecidableEq, Repr

/-- The integer of a weekday in the table of the plugin's documentation. -/
def Weekday.number : Weekday → Int
  | .Monday => 1
  | .Tuesday => 2
  | .Wednesday => 3
  | .Thursday => 4
  | .Friday => 5
  | .Saturday => 6
  | .Sunday => 7

/-- The weekday that follows a weekday. -/
def Weekday.next : Weekday → Weekday
  | .Monday => .Tuesday
  | .Tuesday => .Wednesday
  | .Wednesday => .Thursday
  | .Thursday => .Friday
  | .Friday => .Saturday
  | .Saturday => .Sunday
  | .Sunday => .Monday

/-- The weekday of a Julian day number: day 0 was a Monday, and the weekdays follow
each other in a cycle of seven days. -/
def weekdayOfJulianDay (jd : Int) : Weekday :=
  match (jd % 7).toNat with
  | 0 => .Monday
  | 1 => .Tuesday
  | 2 => .Wednesday
  | 3 => .Thursday
  | 4 => .Friday
  | 5 => .Saturday
  | _ => .Sunday

/-- The weekend state of a device: the value written last, or the default of the
device class if none was written. -/
def weekendState (defaultValue : Bool) (device : DevicePtr) (s : DevicePluginDateTime) : Bool :=
  match writtenStateValue device StateTypeId.weekendStateTypeId s.stateValues with
  | some v => v.toBool
  | none => defaultValue

/-- A JSON value inside an object of a reply, as the `QVariant` it turns into: null,
a boolean, a number (kept as the text `toString()` gives for it), a text, or an
array or object. -/
inductive JsonLeaf where
  | null
  | bool (b : Bool)
  | number (shown : String)
  | string (s : String)
  | container
  deriving DecidableEq, Repr

/-- A member of the object at the top of a reply: a value, or an object with its
members. -/
inductive JsonValue where
  | leaf (v : JsonLeaf)
  | object (members : List (String × JsonLeaf))
  deriving DecidableEq, Repr

/-- The map `jsonDoc.toVariant().toMap()` of a parsed reply: the members of the
object at its top, none if the document is an array. -/
abbrev JsonDocument := List (String × JsonValue)

/-- `QVariant::toString()` of a value inside an object; an invalid variant, an
array and an object give the empty text. -/
def JsonLeaf.toString : JsonLeaf → String
  | .null => ""
  | .bool b => if b then "true" else "false"
  | .number shown => shown
  | .string s => s
  | .container => ""

/-- `QVariantMap::value(key)` on the members of an inner object: null stands for the
invalid variant of a key that is missing. -/
def jsonMember (members : List (String × JsonLeaf)) (key : String) : JsonLeaf :=
  match members.find? (fun m => m.1 == key) with
  | some m => m.2
  | none => JsonLeaf.null

/-- `QVariantMap::value(key)` on the map of a reply: null stands for the invalid
variant of a key that is missing. -/
def jsonValue (response : JsonDocument) (key : String) : JsonValue :=
  match response.find? (fun m => m.1 == key) with
  | some m => m.2
  | none => JsonValue.leaf JsonLeaf.null

/-- `QVariant::toString()` of a member of a reply. -/
def JsonValue.toString : JsonValue → String
  | .leaf v => v.toString
  | .object _ => ""

/-- `QVariant::toMap()` of a member of a reply: the members of an object, the empty
map for everything else. -/
def JsonValue.toMap : JsonValue → List (String × JsonLeaf)
  | .leaf _ => []
  | .object members => members

/-- The comparison `variant == "word"` for a word that spells no number, as
"success" and "OK": a text is compared as text, a boolean with the truth value the
word converts to, and nothing else equals the word. -/
def JsonValue.isWord (v : JsonValue) (word : String) : Bool :=
  match v with
  | .leaf (.string s) => s == word
  | .leaf (.bool b) => b == textToBool word
  | _ => false

/-- `QDateTime::toTime_t()`: the seconds since the epoch, and `(uint)-1` when they do
not fit or the date-time is not valid. -/
def QDateTime.toTime_t (d : QDateTime) : Int :=
  match d.msecsSinceEpoch with
  | some msecs =>
    if 0 ≤ Int.tdiv msecs 1000 ∧ Int.tdiv msecs 1000 < 4294967295 then Int.tdiv msecs 1000
    else 4294967295
  | none => 4294967295

/-- What the handling of a network reply reads from outside the plugin: the parse
`QJsonDocument::fromJson(data)` as the map of the document (`none` for a parse
error), the reply object `networkManagerGet` returns for the request of the sun
times, and the date-time
`QDateTime(QDate::currentDate(), QTime::fromString(text, "h:m:s AP"), Qt::UTC).toTimeZone(zone)`
for a text and a time zone. -/
structure ReplyInputs where
  fromJson : String → Option JsonDocument
  timeReply : Nat
  sunTime : String → QTimeZone → QDateTime

/-- The setters `setDusk`, `setSunrise`, `setNoon`, `setDawn` and `setSunset` of an
alarm, called with the members of the plugin. -/
def Alarm.setSunTimes (alarm : Alarm) (s : DevicePluginDateTime) : Alarm :=
  { alarm with
    dusk := s.m_dusk
    sunrise := s.m_sunrise
    noon := s.m_noon
    dawn := s.m_dawn
    sunset := s.m_sunset }

/-- `DevicePluginDateTime::onTimeDataUpdate()`. `none` is the call of `setStateValue`
through `m_todayDevice` when it is null. -/
def onTimeDataUpdate (s : DevicePluginDateTime) : Option DevicePluginDateTime :=
  -- alarms
  let s1 := { s with m_alarms := s.m_alarms.map (fun e => (e.1, e.2.setSunTimes s)) }
  -- date
  if s1.m_todayDevice ≠ none then
    some s1
  else
    match s1.m_todayDevice with
    | none => none
    | some today =>
      let v1 := setStateValue today StateTypeId.duskStateTypeId
        (QVariant.int s1.m_dusk.toTime_t) s1.stateValues
      let v2 := setStateValue today StateTypeId.sunriseStateTypeId
        (QVariant.int s1.m_sunrise.toTime_t) v1
      let v3 := setStateValue today StateTypeId.noonStateTypeId
        (QVariant.int s1.m_noon.toTime_t) v2
      let v4 := setStateValue today StateTypeId.dawnStateTypeId
        (QVariant.int s1.m_dawn.toTime_t) v3
      let v5 := setStateValue today StateTypeId.sunsetStateTypeId
        (QVariant.int s1.m_sunset.toTime_t) v4
      some { s1 with stateValues := v5 }

/-- `DevicePluginDateTime::getTimes(latitude, longitude)`; `reply` is the object
`networkManagerGet` returns. -/
def getTimes (reply : Nat) (latitude longitude : String) (s : DevicePluginDateTime) :
    DevicePluginDateTime :=
  let urlQuery : QUrlQuery :=
    [] ++ [("lat", latitude)] ++ [("lng", longitude)] ++ [("date", "today")]
  { s with
    emitted := s.emitted ++
      [PluginSignal.networkManagerGet reply "http://api.sunrise-sunset.org/json" urlQuery]
    m_timeReplies := s.m_timeReplies ++ [reply] }

/-- `DevicePluginDateTime::processGeoLocationData(data)`. A status other than
"success" is logged with a warning, and the function goes on. -/
def processGeoLocationData (inp : ReplyInputs) (data : String) (s : DevicePluginDateTime) :
    DevicePluginDateTime :=
  match inp.fromJson data with
  | none => s
  | some response =>
    let s1 := if !(jsonValue response "status").isWord "success" then s else s
    -- check timezone
    let timeZone := (jsonValue response "timezone").toString
    if s1.m_timeZone.id ≠ timeZone then s1
    else
      getTimes inp.timeReply (jsonValue response "lat").toString
        (jsonValue response "lon").toString s1

/-- `DevicePluginDateTime::processTimesData(data)`. The signal `timeDataChanged` is
connected to `onTimeDataUpdate` of the same object, which runs inside the `emit`. -/
def processTimesData (inp : ReplyInputs) (data : String) (s : DevicePluginDateTime) :
    Option DevicePluginDateTime :=
  match inp.fromJson data with
  | none => some s
  | some response =>
    if !(jsonValue response "status").isWord "OK" then some s
    else
      -- given time is always in UTC
      let result := (jsonValue response "results").toMap
      let duskString := (jsonMember result "civil_twilight_begin").toString
      let sunriseString := (jsonMember result "sunrise").toString
      let noonString := (jsonMember result "solar_noon").toString
      let dawnString := (jsonMember result "civil_twilight_end").toString
      let sunsetString := (jsonMember result "sunset").toString
      let s1 :=
        { s with
          m_dusk := inp.sunTime duskString s.m_timeZone
          m_sunrise := inp.sunTime sunriseString s.m_timeZone
          m_noon := inp.sunTime noonString s.m_timeZone
          m_dawn := inp.sunTime dawnString s.m_timeZone
          m_sunset := inp.sunTime sunsetString s.m_timeZone }
      onTimeDataUpdate { s1 with emitted := s1.emitted ++ [PluginSignal.timeDataChanged] }

/-- `DevicePluginDateTime::networkManagerReplyReady(reply)`; `status` is the HTTP
status code of the reply and `data` what `readAll()` gives. -/
def networkManagerReplyReady (inp : ReplyInputs) (reply : Nat) (status : Int) (data : String)
    (s : DevicePluginDateTime) : Option DevicePluginDateTime :=
  if reply ∈ s.m_locationReplies then
    let s1 := { s with m_locationReplies := s.m_locationReplies.filter (fun r => r != reply) }
    if status ≠ 200 then some s1
    else some (processGeoLocationData inp data s1)
  else if reply ∈ s.m_timeReplies then
    let s1 := { s with m_timeReplies := s.m_timeReplies.filter (fun r => r != reply) }
    if status ≠ 200 then some s1
    else processTimesData inp data s1
  else some s

/-- The state of a plugin right after its constructor ran: the timer is created but
not started, the time zone is the configured one and the current time is stored. -/
def newPlugin (timeZone : QTimeZone) (now : QDateTime) : DevicePluginDateTime :=
  { m_timerActive := false
    m_todayDevice := none
    m_timeZone := timeZone
    m_currentDateTime := now
    m_alarms := []
    m_dusk := QDateTime.null
    m_sunrise := QDateTime.null
    m_noon := QDateTime.null
    m_dawn := QDateTime.null
    m_sunset := QDateTime.null
    m_locationReplies := []
    m_timeReplies := []
    emitted := []
    stateValues := [] }

/-- A call of `finish` on a handle whose transaction reference is set. -/
structure LiveCall where
  info : ThingSetupInfoPtr
  pyThing : Option Nat
  status : Int
  message : Option String
  deriving DecidableEq, Repr

/-- The handle of a live call. -/
def LiveCall.handle (c : LiveCall) : PyThingSetupInfo := ⟨some c.info, c.pyThing⟩

/-- The Python arguments of a live call. -/
def LiveCall.args (c : LiveCall) : List PyObject := finishArgs c.status c.message

/-- The queued invocation a live call stands for. -/
def LiveCall.invocation (c : LiveCall) : QueuedInvocation :=
  invocationOf c.info c.status c.message

/-- The completion slot of a transaction is not pending: it is finished, or the
transaction is not in the table any more. -/
def NotPending (info : ThingSetupInfoPtr) (w : Runtime) : Prop :=
  ∀ t, lookupTransaction info w.transactions = some t →
    t.completion ≠ CompletionState.Pending

/-- A transaction is settled for the control thread when its completion slot is not
pending, or a completion for it is already waiting in the queue. -/
def Settled (info : ThingSetupInfoPtr) (w : Runtime) : Prop :=
  NotPending info w ∨ ∃ e ∈ w.eventQueue, e.receiver = info ∧ e.member = "finish"

/-- Post an event behind the waiting ones. -/
def enqueue (c : QueuedInvocation) (w : Runtime) : Runtime :=
  { w with eventQueue := w.eventQueue ++ [c] }

/-! ## Bus devices and their manager -/

/-- The bytes of a `QByteArray` on a bus. -/
abbrev ByteBuffer := List Nat

/-- The members of `SPIDevice`. -/
structure SPIDevice where
  m_portName : String
  m_address : Int
  deriving DecidableEq, Repr

/-- The constructor `SPIDevice::SPIDevice(portName, address, parent)`. -/
def SPIDevice.construct (portName : String) (address : Int) : SPIDevice :=
  { m_portName := portName, m_address := address }

/-- `SPIDevice::portName()`. -/
def SPIDevice.portName (d : SPIDevice) : String := d.m_portName

/-- `SPIDevice::address()`. -/
def SPIDevice.address (d : SPIDevice) : Int := d.m_address

/-- `SPIDevice::readData(fileDescriptor)`, the default: the bytes returned and the
device afterwards. -/
def SPIDevice.readData (d : SPIDevice) (_fileDescriptor : Int) : ByteBuffer × SPIDevice :=
  ([], d)

/-- `SPIDevice::writeData(fileDescriptor, data)`, the default: the result and the
device afterwards. -/
def SPIDevice.writeData (d : SPIDevice) (_fileDescriptor : Int) (_data : ByteBuffer) :
    Bool × SPIDevice :=
  (false, d)

/-- A call of a member function of `SPIDevice`. -/
inductive SPIDeviceCall where
  | portName
  | address
  | readData (fileDescriptor : Int)
  | writeData (fileDescriptor : Int) (data : ByteBuffer)
  deriving DecidableEq, Repr

/-- The device after a call of a member function. -/
def SPIDevice.afterCall (d : SPIDevice) : SPIDeviceCall → SPIDevice
  | .portName => d
  | .address => d
  | .readData fileDescriptor => (d.readData fileDescriptor).2
  | .writeData fileDescriptor data => (d.writeData fileDescriptor data).2

/-- The device after a sequence of calls. -/
def SPIDevice.afterCalls (d : SPIDevice) (calls : List SPIDeviceCall) : SPIDevice :=
  calls.foldl SPIDevice.afterCall d

/-- Address of a bus device object. -/
abbrev BusDevicePtr := Nat

/-- Modelled from the spec: the classes that implement the bus managers are not among
the sources; spimanager.cpp holds only the documentation of the interface. What the
manager keeps for a bus device, after section 3 of the spec: the open flag, the
polling interval if the device is being read, and the queue of pending writes. -/
structure BusDeviceState where
  isOpen : Bool
  pollingInterval : Option Nat
  writeQueue : List ByteBuffer
  deriving DecidableEq, Repr

/-- Modelled from the spec: the state of a bus manager, which is not among the
sources: what it keeps for each device, and the read and write behaviours its workers
have invoked so far, oldest first. -/
structure BusManager where
  devices : List (BusDevicePtr × BusDeviceState)
  readCalls : List BusDevicePtr
  writeCalls : List (BusDevicePtr × ByteBuffer)
  deriving DecidableEq, Repr

/-- Modelled from the spec: what the manager keeps for a device; a device it has
never seen is closed, is not read and has no pending write. -/
def BusManager.stateOf (m : BusManager) (dev : BusDevicePtr) : BusDeviceState :=
  match hashValue dev m.devices with
  | some st => st
  | none => ⟨false, none, []⟩

/-- Modelled from the spec: the manager with a new state for one device. -/
def BusManager.setState (m : BusManager) (dev : BusDevicePtr) (st : BusDeviceState) :
    BusManager :=
  { m with devices := hashInsert dev st m.devices }

/-- Modelled from the spec: `open(busDevice)` of section 4.3: it fails if the port
cannot be opened or the descriptor is invalid (`canOpen` is false), and on success
the device is open. -/
def BusManager.open (canOpen : Bool) (dev : BusDevicePtr) (m : BusManager) :
    Bool × BusManager :=
  if canOpen then (true, m.setState dev { m.stateOf dev with isOpen := true })
  else (false, m)

/-- Modelled from the spec: `startReading(busDevice, intervalMs)` of section 4.3: it
requires a device that is open and then begins the periodic polling. -/
def BusManager.startReading (dev : BusDevicePtr) (interval : Nat) (m : BusManager) :
    Bool × BusManager :=
  if (m.stateOf dev).isOpen then
    (true, m.setState dev { m.stateOf dev with pollingInterval := some interval })
  else (false, m)

/-- Modelled from the spec: `stopReading(busDevice)` of section 4.3: idempotent, it
stops the future polls of a device that is being read. -/
def BusManager.stopReading (dev : BusDevicePtr) (m : BusManager) : BusManager :=
  if (m.stateOf dev).pollingInterval = none then m
  else m.setState dev { m.stateOf dev with pollingInterval := none }

/-- Modelled from the spec: one poll by a worker: the read behaviour is invoked with
the open handle of a device that is being read. -/
def BusManager.pollStep (dev : BusDevicePtr) (m : BusManager) : BusManager :=
  if (m.stateOf dev).isOpen ∧ (m.stateOf dev).pollingInterval ≠ none then
    { m with readCalls := m.readCalls ++ [dev] }
  else m

/-- Modelled from the spec: the polls of the workers in some order. -/
def BusManager.pollSteps (schedule : List BusDevicePtr) (m : BusManager) : BusManager :=
  schedule.foldl (fun acc dev => acc.pollStep dev) m

/-- Modelled from the spec: `writeData(busDevice, bytes)` of section 4.3: the bytes are
put at the end of the write queue of the device, which is required to be open. -/
def BusManager.writeData (dev : BusDevicePtr) (bytes : ByteBuffer) (m : BusManager) :
    Bool × BusManager :=
  if (m.stateOf dev).isOpen then
    (true, m.setState dev
      { m.stateOf dev with writeQueue := (m.stateOf dev).writeQueue ++ [bytes] })
  else (false, m)

/-- Modelled from the spec: one step of a worker draining the write queue of a device:
the oldest pending buffer is taken off and the write behaviour is invoked with it. -/
def BusManager.writeStep (dev : BusDevicePtr) (m : BusManager) : BusManager :=
  match (m.stateOf dev).writeQueue with
  | [] => m
  | bytes :: rest =>
    { m.setState dev { m.stateOf dev with writeQueue := rest } with
      writeCalls := m.writeCalls ++ [(dev, bytes)] }

/-- Modelled from the spec: the write steps of the workers in some order. -/
def BusManager.writeSteps (schedule : List BusDevicePtr) (m : BusManager) : BusManager :=
  schedule.foldl (fun acc dev => acc.writeStep dev) m

/-- Modelled from the spec: `close(busDevice)` of section 4.3: reading is stopped
first, then the handle is released; closing a closed device does nothing. -/
def BusManager.close (dev : BusDevicePtr) (m : BusManager) : BusManager :=
  if (m.stateOf dev).isOpen then
    (m.stopReading dev).setState dev { (m.stopReading dev).stateOf dev with isOpen := false }
  else m

/-- A sequence of `writeData` calls, each with its device and its buffer. -/
def BusManager.writeAll (writes : List (BusDevicePtr × ByteBuffer)) (m : BusManager) :
    BusManager :=
  writes.foldl (fun acc w => (acc.writeData w.1 w.2).2) m

/-- The buffers of a sequence of writes that go to one device, in their order. -/
def buffersFor (dev : BusDevicePtr) (writes : List (BusDevicePtr × ByteBuffer)) :
    List ByteBuffer :=
  (writes.filter (fun w => w.1 == dev)).map (fun w => w.2)

/-- The buffers the write behaviour of a device was invoked with, oldest first. -/
def BusManager.writtenTo (m : BusManager) (dev : BusDevicePtr) : List ByteBuffer :=
  buffersFor dev m.writeCalls

/-- How often the read behaviour of a device was invoked. -/
def BusManager.readsOf (m : BusManager) (dev : BusDevicePtr) : Nat :=
  m.readCalls.count dev

/-- A manager that has seen no device. -/
def BusManager.empty : BusManager := ⟨[], [], []⟩

/-! ## The cloud authenticator -/

/-- What `QNetworkAccessManager::post(request, data)` is given: the URL of the
request, its raw header `Authorization`, its content type header, and the query whose
text is the data. -/
structure PostedRequest where
  url : String
  authorization : String
  contentType : String
  data : QUrlQuery
  deriving DecidableEq, Repr

/-- The members of `CloudAuthenticator`, and the requests it has posted so far, each
with the reply object `post` returned for it. The timer is kept as the flag whether
it is running. -/
structure CloudAuthenticator where
  m_clientId : String
  m_clientSecret : String
  m_authenticated : Bool
  m_refreshToken : String
  m_username : String
  m_password : String
  m_token : String
  m_url : String
  m_query : QUrlQuery
  m_timerActive : Bool
  m_tokenRequests : List Nat
  m_refreshTokenRequests : List Nat
  posted : List (Nat × PostedRequest)
  deriving DecidableEq, Repr

/-- The header `"Basic " + QString(m_clientId + ":" + m_clientSecret).toUtf8().toBase64()`;
`toBase64` is the Base64 form of the UTF-8 bytes of a text. -/
def CloudAuthenticator.basicHeader (toBase64 : String → String) (s : CloudAuthenticator) :
    String :=
  "Basic " ++ toBase64 (s.m_clientId ++ ":" ++ s.m_clientSecret)

/-- `CloudAuthenticator::setQuery(query)`. -/
def CloudAuthenticator.setQuery (query : QUrlQuery) (s : CloudAuthenticator) :
    CloudAuthenticator :=
  { s with m_query := query }

/-- `CloudAuthenticator::stopAuthentication()`. -/
def CloudAuthenticator.stopAuthentication (s : CloudAuthenticator) : CloudAuthenticator :=
  { s with m_timerActive := false }

/-- `CloudAuthenticator::refreshTimeout()`; `reply` is the object `post` returns. -/
def CloudAuthenticator.refreshTimeout (toBase64 : String → String) (reply : Nat)
    (s : CloudAuthenticator) : CloudAuthenticator :=
  let query : QUrlQuery :=
    [] ++ [("grant_type", "refresh_token")] ++ [("refresh_token", s.m_refreshToken)]
  let request : PostedRequest :=
    { url := s.m_url
      authorization := s.basicHeader toBase64
      contentType := "application/x-www-form-urlencoded"
      data := query }
  { s with
    m_refreshTokenRequests := s.m_refreshTokenRequests ++ [reply]
    posted := s.posted ++ [(reply, request)] }

/-- `CloudAuthenticator::startAuthentication()`; `reply` is the object `post` returns. -/
def CloudAuthenticator.startAuthentication (toBase64 : String → String) (reply : Nat)
    (s : CloudAuthenticator) : Bool × CloudAuthenticator :=
  -- Check if we have username and password
  if !s.m_username.isEmpty && !s.m_password.isEmpty then
    let query : QUrlQuery :=
      [] ++ [("grant_type", "password")] ++ [("username", s.m_username)] ++
        [("password", s.m_password)]
    let s1 := s.setQuery query
    let request : PostedRequest :=
      { url := s1.m_url
        authorization := s1.basicHeader toBase64
        contentType := "application/x-www-form-urlencoded"
        data := s1.m_query }
    (true, { s1 with
      m_tokenRequests := s1.m_tokenRequests ++ [reply]
      posted := s1.posted ++ [(reply, request)] })
  else if !s.m_refreshToken.isEmpty then
    -- Use the refreshtoken if there is any
    (true, s.refreshTimeout toBase64 reply)
  else
    (false, s.stopAuthentication)

/-- An authenticator that was just constructed: the refresh token and the user name
are the stored ones, nothing is requested and the timer does not run. -/
def CloudAuthenticator.construct (clientId clientSecret refreshToken userName : String) :
    CloudAuthenticator :=
  { m_clientId := clientId
    m_clientSecret := clientSecret
    m_authenticated := false
    m_refreshToken := refreshToken
    m_username := userName
    m_password := ""
    m_token := ""
    m_url := ""
    m_query := []
    m_timerActive := false
    m_tokenRequests := []
    m_refreshTokenRequests := []
    posted := [] }

/-! ## Sample states -/

/-- A runtime in which transaction 7 sets up device 1 and nothing is queued. -/
def sampleRuntime : Runtime :=
  ⟨none, [], [(7, ⟨1, CompletionState.Pending⟩)], [(1, SetupState.SettingUp)], []⟩

/-- The handle of transaction 7. -/
def sampleHandle : PyThingSetupInfo := ⟨some 7, some 1⟩

/-- The handles and arguments of a sequence of live calls. -/
def callsOf (calls : List LiveCall) : List (PyThingSetupInfo × List PyObject) :=
  calls.map (fun c => (c.handle, c.args))

/-- Three calls, on the transactions 7, 8 and 7 again. -/
def sampleCalls : List LiveCall :=
  [⟨7, none, 0, none⟩, ⟨8, none, 11, some "no route"⟩, ⟨7, none, 3, some "late"⟩]

/-- The sample runtime with one completion of transaction 9 waiting. -/
def busyRuntime : Runtime :=
  { sampleRuntime with eventQueue := [⟨9, "finish", 0, ""⟩] }

/-- The runtime in which the second call of `finish` happens: after the first call
and `k` scheduling steps of the control thread. -/
def afterFirstFinish (self : PyThingSetupInfo) (status : Int) (message : Option String)
    (k : Nat) (w : Runtime) : Runtime :=
  processEvents k (PyThingSetupInfo_finish self (finishArgs status message) w).2

/-- A time zone the system knows. -/
def viennaZone : QTimeZone := ⟨"Europe/Vienna", true⟩

/-- What `QTimeZone` makes of an id the system does not know. -/
def unknownZone : QTimeZone := ⟨"", false⟩

/-- The alarm "Wake" of the spec: Monday, 7:00. -/
def wakeDevice : Device :=
  { addr := 5
    deviceClassId := alarmDeviceClassId
    params :=
      [⟨"name", QVariant.string "Wake"⟩, ⟨"monday", QVariant.bool true⟩,
       ⟨"tuesday", QVariant.bool false⟩, ⟨"wednesday", QVariant.bool false⟩,
       ⟨"thursday", QVariant.bool false⟩, ⟨"friday", QVariant.bool false⟩,
       ⟨"saturday", QVariant.bool false⟩, ⟨"sunday", QVariant.bool false⟩,
       ⟨"minutes", QVariant.int 0⟩, ⟨"hours", QVariant.int 7⟩,
       ⟨"time type", QVariant.string "time"⟩, ⟨"offset", QVariant.int 0⟩] }

/-- A date device. -/
def dateDevice : Device :=
  { addr := 4
    deviceClassId := todayDeviceClassId
    params := [⟨"name", QVariant.byteArray "Europe/Vienna"⟩] }

/-- A second alarm, registered before "Wake". -/
def napAlarm : Alarm :=
  { name := "Nap", monday := false, tuesday := false, wednesday := false, thursday := false,
    friday := false, saturday := true, sunday := true, minutes := 30, hours := 14,
    timeType := "time", offset := 0, dusk := QDateTime.null, sunrise := QDateTime.null,
    noon := QDateTime.null, dawn := QDateTime.null, sunset := QDateTime.null }

/-- Saturday, 31 October 2026, 10:00 in Vienna: Julian day 2461345. -/
def saturdayMorning : QDateTime := ⟨some 1793437200000, ⟨some 2461345⟩, ⟨10, 0⟩⟩

/-- A plugin in Vienna that already holds the alarm of device 6. -/
def viennaPlugin : DevicePluginDateTime :=
  { newPlugin viennaZone saturdayMorning with m_alarms := [(6, napAlarm)] }

/-- A plugin whose configured time zone is not known to the system. -/
def lostPlugin : DevicePluginDateTime := newPlugin unknownZone saturdayMorning

/-- The descriptor of the date device that the plugin announces. -/
def dateDescriptorOf (s : DevicePluginDateTime) : DeviceDescriptor :=
  { deviceClassId := todayDeviceClassId
    title := "Date"
    description := s.m_timeZone.id
    params := [⟨"name", QVariant.byteArray s.m_timeZone.id⟩] }

/-- A tick of the timer at a time, no alarm device being configured; the reading is
shared by the slots. -/
def quietTick (zoneTime : QDateTime) : TickInputs :=
  { zoneTime := zoneTime
    dayZoneTime := zoneTime
    minuteZoneTime := zoneTime
    configuredAlarmDevices := []
    validate := fun _ _ => false
    validateTimes := fun _ _ => false
    longDayName := fun _ => ""
    longMonthName := fun _ => ""
    locationReply := 0 }

/-- One second after `saturdayMorning`. -/
def saturdayMorningLater : QDateTime := ⟨some 1793437201000, ⟨some 2461345⟩, ⟨10, 0⟩⟩

/-- Monday, 2 November 2026, 0:00 in Vienna: Julian day 2461347. -/
def mondayMidnight : QDateTime := ⟨some 1793574000000, ⟨some 2461347⟩, ⟨0, 0⟩⟩

/-- A manager on which device 1 is open and device 2 was never opened. -/
def sampleManager : BusManager := (BusManager.empty.open true 1).2

/-- Writes to the devices 1 and 3, the buffers for device 1 being `[10]`, `[11, 12]`
and `[13]`. -/
def sampleWrites : List (BusDevicePtr × ByteBuffer) :=
  [(1, [10]), (3, [99]), (1, [11, 12]), (1, [13])]

/-- An authenticator with user name, password and a stored refresh token. -/
def fullAuthenticator : CloudAuthenticator :=
  { CloudAuthenticator.construct "id" "secret" "r3fr3sh" "ada" with
    m_password := "pw", m_url := "https://cloud.example/oauth2/token", m_timerActive := true }

/-- An authenticator with a stored refresh token, but no password. -/
def refreshAuthenticator : CloudAuthenticator :=
  { CloudAuthenticator.construct "id" "secret" "r3fr3sh" "ada" with m_timerActive := true }

/-- An authenticator with a user name only, its timer running. -/
def bareAuthenticator : CloudAuthenticator :=
  { CloudAuthenticator.construct "id" "secret" "" "ada" with m_timerActive := true }

/-- The members of the plugin that the slots of a timer tick leave alone. -/
def SameConfiguration (s2 s : DevicePluginDateTime) : Prop :=
  s2.m_timeZone = s.m_timeZone ∧ s2.m_alarms = s.m_alarms ∧ s2.m_todayDevice = s.m_todayDevice

/-- Every alarm device that the device manager lists has its alarm in `m_alarms`. -/
def AlarmsRegistered (devices : List Device) (s : DevicePluginDateTime) : Prop :=
  ∀ d ∈ devices, hashValue d.addr s.m_alarms ≠ none

/-- The time zone ids of a small system. -/
def sampleZoneIds : List String := ["Europe/Vienna", "Europe/Berlin", "UTC"]

/-- The body of a location reply that reports a failure and yet names the time zone
of Vienna and a position. -/
def failedLocationBody : String :=
  "\x7b\"status\":\"fail\",\"timezone\":\"Europe/Vienna\",\"lat\":\"48.2\",\"lon\":\"16.37\"\x7d"

/-- The map of `failedLocationBody`. -/
def failedLocationDocument : JsonDocument :=
  [("status", .leaf (.string "fail")), ("timezone", .leaf (.string "Europe/Vienna")),
   ("lat", .leaf (.string "48.2")), ("lon", .leaf (.string "16.37"))]

/-- The body of a reply with the sun times of a day. -/
def sunTimesBody : String :=
  "\x7b\"results\":\x7b\"sunrise\":\"5:41:02 AM\",\"sunset\":\"3:39:10 PM\",\"solar_noon\":\"10:40:06 AM\",\"civil_twilight_begin\":\"5:09:43 AM\",\"civil_twilight_end\":\"4:10:29 PM\"\x7d,\"status\":\"OK\"\x7d"

/-- The map of `sunTimesBody`. -/
def sunTimesDocument : JsonDocument :=
  [("results", .object
      [("sunrise", .string "5:41:02 AM"), ("sunset", .string "3:39:10 PM"),
       ("solar_noon", .string "10:40:06 AM"), ("civil_twilight_begin", .string "5:09:43 AM"),
       ("civil_twilight_end", .string "4:10:29 PM")]),
   ("status", .leaf (.string "OK"))]

/-- The body of a reply of the sun time service that reports an error. -/
def refusedTimesBody : String :=
  "\x7b\"results\":\"\",\"status\":\"INVALID_REQUEST\"\x7d"

/-- The map of `refusedTimesBody`. -/
def refusedTimesDocument : JsonDocument :=
  [("results", .leaf (.string "")), ("status", .leaf (.string "INVALID_REQUEST"))]

/-- A time of 31 October 2026 in Vienna, given by hour and minute; the instant is
counted from midnight, 23:00 UTC of the day before. -/
def viennaTime (hour minute : Int) : QDateTime :=
  ⟨some (1793401200000 + (hour * 60 + minute) * 60000), ⟨some 2461345⟩, ⟨hour, minute⟩⟩

/-- The inputs of a reply in the samples: the three sample bodies parse to their maps
and every other body to nothing, the request of the sun times gets the reply 21, and
the sun times of the sample day are read in Vienna, one hour ahead of UTC. -/
def sampleReplyInputs : ReplyInputs :=
  { fromJson := fun data =>
      if data = failedLocationBody then some failedLocationDocument
      else if data = sunTimesBody then some sunTimesDocument
      else if data = refusedTimesBody then some refusedTimesDocument
      else none
    timeReply := 21
    sunTime := fun text _ =>
      if text = "5:09:43 AM" then viennaTime 6 9
      else if text = "5:41:02 AM" then viennaTime 6 41
      else if text = "10:40:06 AM" then viennaTime 11 40
      else if text = "3:39:10 PM" then viennaTime 16 39
      else if text = "4:10:29 PM" then viennaTime 17 10
      else QDateTime.null }

/-- A plugin in Vienna that holds the alarm of device 6, has the date device 4 and
knows the sun times of the day. -/
def sunnyPlugin : DevicePluginDateTime :=
  { (setupDevice viennaPlugin dateDevice).2 with
    m_dusk := viennaTime 6 9
    m_sunrise := viennaTime 6 41
    m_noon := viennaTime 11 40
    m_dawn := viennaTime 17 10
    m_sunset := viennaTime 16 39 }

/-- The same plugin after the date device was removed: no today device is recorded. -/
def sunnyPluginWithoutDate : DevicePluginDateTime :=
  { sunnyPlugin with m_todayDevice := none }

/-- The plugin in Vienna with the date device, before it knows any sun time. -/
def sunnyPluginWithoutTimes : DevicePluginDateTime := (setupDevice viennaPlugin dateDevice).2

theorem parse_finishArgs (status : Int) (message : Option String)
    (h : WellFormed status message) :
    PyArg_ParseTuple (finishArgs status message) = some (status, message) := by
  obtain ⟨hr, hm⟩ := h
  cases message with
  | none => simp [finishArgs, PyArg_ParseTuple, parseUnit_i, hr]
  | some m =>
    have hz : Char.ofNat 0 ∉ m.data := hm
    simp [finishArgs, PyArg_ParseTuple, parseUnit_i, parseUnit_s, hr, hz]

theorem finish_wellFormed (self : PyThingSetupInfo) (status : Int) (message : Option String)
    (w : Runtime) (h : WellFormed status message) :
    PyThingSetupInfo_finish self (finishArgs status message) w =
      (some PyObject.pyNone,
        match self.info with
        | some info => invokeMethodQueued info "finish" status (messageOf message) w
        | none => w) := by
  unfold PyThingSetupInfo_finish
  rw [parse_finishArgs status message h]
  cases message <;> rfl


/-- C1: on a handle whose transaction reference is set, a well-formed call
`finish(status[, message])` returns `None` and does nothing but post one queued
invocation of `finish` carrying `(status, message)` behind the events waiting for the
control thread; the transactions, the devices, the emitted signals and the error
indicator are what they were. -/
theorem finish_only_enqueues (self : PyThingSetupInfo) (info : ThingSetupInfoPtr)
    (status : Int) (message : Option String) (w : Runtime)
    (hinfo : self.info = some info) (hwf : WellFormed status message) :
    (PyThingSetupInfo_finish self (finishArgs status message) w).1 = some PyObject.pyNone ∧
    (PyThingSetupInfo_finish self (finishArgs status message) w).2.eventQueue =
      w.eventQueue ++ [⟨info, "finish", status, messageOf message⟩] ∧
    (PyThingSetupInfo_finish self (finishArgs status message) w).2.transactions =
      w.transactions ∧
    (PyThingSetupInfo_finish self (finishArgs status message) w).2.devices = w.devices ∧
    (PyThingSetupInfo_finish self (finishArgs status message) w).2.emitted = w.emitted ∧
    (PyThingSetupInfo_finish self (finishArgs status message) w).2.pyErr = w.pyErr := by
  rw [finish_wellFormed self status message w hwf, hinfo]
  simp [invokeMethodQueued]

/-- Witness of C1: `finish(0, "ok")` on the handle of transaction 7. -/
theorem finish_only_enqueues_witness :
    (PyThingSetupInfo_finish sampleHandle (finishArgs 0 (some "ok")) sampleRuntime).1
      = some PyObject.pyNone ∧
    (PyThingSetupInfo_finish sampleHandle (finishArgs 0 (some "ok")) sampleRuntime).2.eventQueue
      = sampleRuntime.eventQueue ++ [⟨7, "finish", 0, messageOf (some "ok")⟩] ∧
    (PyThingSetupInfo_finish sampleHandle (finishArgs 0 (some "ok")) sampleRuntime).2.transactions
      = sampleRuntime.transactions ∧
    (PyThingSetupInfo_finish sampleHandle (finishArgs 0 (some "ok")) sampleRuntime).2.devices
      = sampleRuntime.devices ∧
    (PyThingSetupInfo_finish sampleHandle (finishArgs 0 (some "ok")) sampleRuntime).2.emitted
      = sampleRuntime.emitted ∧
    (PyThingSetupInfo_finish sampleHandle (finishArgs 0 (some "ok")) sampleRuntime).2.pyErr
      = sampleRuntime.pyErr :=
  finish_only_enqueues sampleHandle 7 0 (some "ok") sampleRuntime rfl (by decide)

/-- Calls one after the other: the state after a sequence of live, well-formed calls. -/
theorem finishAll_live (calls : List LiveCall) (w : Runtime)
    (hwf : ∀ c ∈ calls, WellFormed c.status c.message) :
    finishAll (callsOf calls) w =
      { w with eventQueue := w.eventQueue ++ calls.map LiveCall.invocation } := by
  induction calls generalizing w with
  | nil => simp [finishAll, callsOf]
  | cons c cs ih =>
    have hc : WellFormed c.status c.message := hwf c (List.mem_cons_self c cs)
    have hcs : ∀ d ∈ cs, WellFormed d.status d.message :=
      fun d hd => hwf d (List.mem_cons_of_mem c hd)
    have step : (PyThingSetupInfo_finish c.handle c.args w).2 =
        invokeMethodQueued c.info "finish" c.status (messageOf c.message) w := by
      rw [LiveCall.args, finish_wellFormed c.handle c.status c.message w hc]
      rfl
    show finishAll (callsOf cs) (PyThingSetupInfo_finish c.handle c.args w).2 = _
    rw [step, ih _ hcs]
    simp [invokeMethodQueued, LiveCall.invocation, invocationOf]

/-- C4: after a sequence of well-formed calls `c1 .. cn` of `finish` on live
transactions, the queue of the control thread is the previous queue followed by the
invocations of `c1 .. cn` in that order, one for each call, and nothing else of the
runtime has changed. -/
theorem finish_sequence_is_fifo (calls : List LiveCall) (w : Runtime)
    (hwf : ∀ c ∈ calls, WellFormed c.status c.message) :
    (finishAll (callsOf calls) w).eventQueue =
      w.eventQueue ++ calls.map LiveCall.invocation ∧
    (finishAll (callsOf calls) w).transactions = w.transactions ∧
    (finishAll (callsOf calls) w).devices = w.devices ∧
    (finishAll (callsOf calls) w).emitted = w.emitted := by
  rw [finishAll_live calls w hwf]
  exact ⟨rfl, rfl, rfl, rfl⟩

/-- Witness of C4: three calls on the transactions 7, 8 and 7 behind one waiting event. -/
theorem finish_sequence_is_fifo_witness :
    (finishAll (callsOf sampleCalls) busyRuntime).eventQueue =
      busyRuntime.eventQueue ++ sampleCalls.map LiveCall.invocation ∧
    (finishAll (callsOf sampleCalls) busyRuntime).transactions = busyRuntime.transactions ∧
    (finishAll (callsOf sampleCalls) busyRuntime).devices = busyRuntime.devices ∧
    (finishAll (callsOf sampleCalls) busyRuntime).emitted = busyRuntime.emitted :=
  finish_sequence_is_fifo sampleCalls busyRuntime (by decide)

/-- Every kind of the taxonomy is in the list of all kinds. -/
theorem mem_allThingErrorKinds (k : ThingErrorKind) : k ∈ allThingErrorKinds := by
  cases k <;> simp [allThingErrorKinds]

/-- Being a defined member means being the integer of some kind. -/
theorem isDefinedThingError_iff (v : ThingError) :
    isDefinedThingError v = true ↔ ∃ k : ThingErrorKind, k.toInt = v := by
  unfold isDefinedThingError
  rw [List.any_eq_true]
  constructor
  · rintro ⟨k, _, hk⟩
    exact ⟨k, by simpa using hk⟩
  · rintro ⟨k, hk⟩
    exact ⟨k, mem_allThingErrorKinds k, by simpa using hk⟩

/-- Counterexample to C5: `finish(1000)` on a live handle parses, and the value
forwarded to the transaction, 1000, is no member of the error enumeration. -/
theorem finish_forwards_undefined_error :
    (PyThingSetupInfo_finish sampleHandle (finishArgs 1000 none) sampleRuntime).1
        = some PyObject.pyNone ∧
      (PyThingSetupInfo_finish sampleHandle (finishArgs 1000 none) sampleRuntime).2.eventQueue
        = [⟨7, "finish", 1000, ""⟩] ∧
      isDefinedThingError 1000 = false := by
  decide

/-- C5, amended: the value forwarded to the transaction is the integer the plugin
supplied, converted without any check; it is a defined member of the error
enumeration exactly when the plugin supplied the integer of a member. -/
theorem finish_forwards_status_unchecked (self : PyThingSetupInfo) (info : ThingSetupInfoPtr)
    (status : Int) (message : Option String) (w : Runtime)
    (hinfo : self.info = some info) (hwf : WellFormed status message) :
    ∃ e : QueuedInvocation,
      (PyThingSetupInfo_finish self (finishArgs status message) w).2.eventQueue =
        w.eventQueue ++ [e] ∧
      e.thingError = status ∧
      (isDefinedThingError e.thingError = true ↔ ∃ k : ThingErrorKind, k.toInt = status) := by
  refine ⟨⟨info, "finish", status, messageOf message⟩, ?_, rfl, ?_⟩
  · rw [finish_wellFormed self status message w hwf, hinfo]
    rfl
  · exact isDefinedThingError_iff status

/-- Witness of C5, amended: `finish(11, "no route")` on the handle of transaction 7. -/
theorem finish_forwards_status_unchecked_witness :
    ∃ e : QueuedInvocation,
      (PyThingSetupInfo_finish sampleHandle (finishArgs 11 (some "no route"))
          sampleRuntime).2.eventQueue = sampleRuntime.eventQueue ++ [e] ∧
      e.thingError = 11 ∧
      (isDefinedThingError e.thingError = true ↔ ∃ k : ThingErrorKind, k.toInt = 11) :=
  finish_forwards_status_unchecked sampleHandle 7 11 (some "no route") sampleRuntime rfl
    (by decide)

theorem lookup_completeTransaction (ptr ptr2 : ThingSetupInfoPtr) (status : ThingError)
    (message : String) (ts : List (ThingSetupInfoPtr × SetupTransaction)) :
    lookupTransaction ptr (completeTransaction ptr2 status message ts) =
      if ptr = ptr2 then
        (lookupTransaction ptr ts).map
          (fun t => { t with completion := CompletionState.Finished status message })
      else lookupTransaction ptr ts := by
  induction ts with
  | nil => simp [completeTransaction, lookupTransaction]
  | cons head rest ih =>
    obtain ⟨p, t⟩ := head
    by_cases h2 : p = ptr2
    · by_cases h1 : ptr = ptr2
      · subst h2; subst h1
        simp [completeTransaction, lookupTransaction]
      · subst h2
        have h3 : ¬ p = ptr := fun h => h1 h.symm
        simp [completeTransaction, lookupTransaction, h1, h3]
    · by_cases h1 : ptr = ptr2
      · subst h1
        simp [completeTransaction, lookupTransaction, h2, ih]
      · by_cases h3 : p = ptr
        · simp [completeTransaction, lookupTransaction, h2, h1, h3]
        · simp [completeTransaction, lookupTransaction, h2, h1, h3, ih]

theorem ThingSetupInfo_finish_of_notPending (info : ThingSetupInfoPtr) (status : ThingError)
    (message : String) (w : Runtime) (h : NotPending info w) :
    ThingSetupInfo_finish info status message w = w := by
  unfold ThingSetupInfo_finish
  cases hl : lookupTransaction info w.transactions with
  | none => rfl
  | some t =>
    cases hc : t.completion with
    | Pending => exact absurd hc (h t hl)
    | Finished s m => simp [hc]

theorem notPending_ThingSetupInfo_finish (info info2 : ThingSetupInfoPtr) (status : ThingError)
    (message : String) (w : Runtime) (h : info = info2 ∨ NotPending info w) :
    NotPending info (ThingSetupInfo_finish info2 status message w) := by
  unfold ThingSetupInfo_finish
  cases hl : lookupTransaction info2 w.transactions with
  | none =>
    rcases h with rfl | h
    · intro t ht
      simp [hl] at ht
    · exact h
  | some t2 =>
    cases hc : t2.completion with
    | Finished s m =>
      rcases h with rfl | h
      · intro t ht
        simp only [hc] at ht
        rw [hl] at ht
        cases ht
        rw [hc]
        simp
      · simpa [hc] using h
    | Pending =>
      intro t ht
      simp only [hc] at ht
      rw [lookup_completeTransaction] at ht
      by_cases he : info = info2
      · rw [if_pos he] at ht
        cases hl0 : lookupTransaction info w.transactions with
        | none => rw [hl0] at ht; cases ht
        | some t0 =>
          rw [hl0] at ht
          cases ht
          simp
      · simp only [he, if_false] at ht
        rcases h with h | h
        · exact absurd h he
        · exact h t ht

theorem ThingSetupInfo_finish_eventQueue (info : ThingSetupInfoPtr) (status : ThingError)
    (message : String) (w : Runtime) (q : List QueuedInvocation) :
    ThingSetupInfo_finish info status message { w with eventQueue := q } =
      { ThingSetupInfo_finish info status message w with eventQueue := q } := by
  unfold ThingSetupInfo_finish
  cases hl : lookupTransaction info w.transactions with
  | none => simp [hl]
  | some t =>
    cases hc : t.completion <;> simp [hl, hc]

theorem deliver_eventQueue (e : QueuedInvocation) (w : Runtime) (q : List QueuedInvocation) :
    deliver e { w with eventQueue := q } = { deliver e w with eventQueue := q } := by
  unfold deliver
  by_cases h : e.member = "finish"
  · simp only [h, if_true]
    exact ThingSetupInfo_finish_eventQueue _ _ _ w q
  · simp [h]

theorem deliver_keeps_eventQueue (e : QueuedInvocation) (w : Runtime) :
    (deliver e w).eventQueue = w.eventQueue := by
  have h := deliver_eventQueue e w w.eventQueue
  have h2 : ({ w with eventQueue := w.eventQueue } : Runtime) = w := rfl
  rw [h2] at h
  rw [h]

theorem processEvent_cons (w : Runtime) (e : QueuedInvocation) (rest : List QueuedInvocation)
    (hq : w.eventQueue = e :: rest) :
    processEvent w = { deliver e w with eventQueue := rest } := by
  unfold processEvent
  rw [hq]
  exact deliver_eventQueue e w rest

theorem processEvent_nil (w : Runtime) (hq : w.eventQueue = []) : processEvent w = w := by
  unfold processEvent
  rw [hq]

theorem processEvent_enqueue (w : Runtime) (c e : QueuedInvocation)
    (rest : List QueuedInvocation) (hq : w.eventQueue = e :: rest) :
    processEvent (enqueue c w) = enqueue c (processEvent w) := by
  have h1 : (enqueue c w).eventQueue = e :: (rest ++ [c]) := by simp [enqueue, hq]
  rw [processEvent_cons (enqueue c w) e (rest ++ [c]) h1, processEvent_cons w e rest hq]
  have h2 : enqueue c w = { w with eventQueue := w.eventQueue ++ [c] } := rfl
  rw [h2, deliver_eventQueue]
  rfl

theorem notPending_deliver (info : ThingSetupInfoPtr) (e : QueuedInvocation) (w : Runtime)
    (h : NotPending info w) : NotPending info (deliver e w) := by
  unfold deliver
  by_cases hm : e.member = "finish"
  · simp only [hm, if_true]
    exact notPending_ThingSetupInfo_finish info e.receiver _ _ w (Or.inr h)
  · simpa [hm] using h

theorem notPending_eventQueue (info : ThingSetupInfoPtr) (w : Runtime)
    (q : List QueuedInvocation) (h : NotPending info w) :
    NotPending info { w with eventQueue := q } := h

theorem settled_processEvent (info : ThingSetupInfoPtr) (w : Runtime) (h : Settled info w) :
    Settled info (processEvent w) := by
  cases hq : w.eventQueue with
  | nil => rw [processEvent_nil w hq]; exact h
  | cons e rest =>
    rw [processEvent_cons w e rest hq]
    rcases h with h | ⟨e2, he2, hr, hm⟩
    · exact Or.inl (notPending_eventQueue info _ rest (notPending_deliver info e w h))
    · rw [hq] at he2
      rcases List.mem_cons.mp he2 with rfl | hin
      · left
        apply notPending_eventQueue
        unfold deliver
        simp only [hm, if_true]
        exact notPending_ThingSetupInfo_finish info e2.receiver _ _ w (Or.inl hr.symm)
      · exact Or.inr ⟨e2, hin, hr, hm⟩

theorem settled_processEvents (info : ThingSetupInfoPtr) (k : Nat) (w : Runtime)
    (h : Settled info w) : Settled info (processEvents k w) := by
  induction k generalizing w with
  | zero => exact h
  | succ k ih => exact ih (processEvent w) (settled_processEvent info w h)

theorem processEvent_length (w : Runtime) (e : QueuedInvocation) (rest : List QueuedInvocation)
    (hq : w.eventQueue = e :: rest) : (processEvent w).eventQueue = rest := by
  rw [processEvent_cons w e rest hq]

/-- A completion posted for a settled transaction changes nothing of what the
control thread arrives at. -/
theorem drain_enqueue_of_settled (info : ThingSetupInfoPtr) (c : QueuedInvocation)
    (hr : c.receiver = info) (hm : c.member = "finish") (n : Nat) :
    ∀ w : Runtime, w.eventQueue.length = n → Settled info w →
      drain (enqueue c w) = drain w := by
  induction n with
  | zero =>
    intro w hn hs
    have hq : w.eventQueue = [] := List.length_eq_zero.mp hn
    have hnp : NotPending info w := by
      rcases hs with h | ⟨e, he, _⟩
      · exact h
      · rw [hq] at he
        cases he
    have h1 : (enqueue c w).eventQueue = [c] := by simp [enqueue, hq]
    have h2 : drain (enqueue c w) = processEvent (enqueue c w) := by
      simp [drain, h1, processEvents]
    have h3 : drain w = w := by simp [drain, hq, processEvents]
    rw [h2, h3, processEvent_cons (enqueue c w) c [] h1]
    have h4 : deliver c (enqueue c w) = enqueue c w := by
      unfold deliver
      simp only [hm, if_true, hr]
      exact ThingSetupInfo_finish_of_notPending info _ _ _ (notPending_eventQueue info w _ hnp)
    rw [h4]
    cases w
    simp only [enqueue] at *
    simp [hq]
  | succ n ih =>
    intro w hn hs
    cases hq : w.eventQueue with
    | nil => rw [hq] at hn; cases hn
    | cons e rest =>
      have hlen : rest.length = n := by
        rw [hq] at hn
        simpa using hn
      have h1 : (enqueue c w).eventQueue.length = (n + 1) + 1 := by
        simp [enqueue, hq, hlen]
      have h2 : drain (enqueue c w) = processEvents (n + 1) (processEvent (enqueue c w)) := by
        simp only [drain, h1, processEvents]
      have h3 : drain w = processEvents n (processEvent w) := by
        simp only [drain, hn, processEvents]
      have h4 : (processEvent w).eventQueue.length = n := by
        rw [processEvent_length w e rest hq, hlen]
      have h5 : drain (processEvent w) = processEvents n (processEvent w) := by
        simp only [drain, h4]
      have h6 : (enqueue c (processEvent w)).eventQueue.length = n + 1 := by
        simp [enqueue, h4]
      have h7 : drain (enqueue c (processEvent w)) =
          processEvents (n + 1) (enqueue c (processEvent w)) := by
        simp only [drain, h6]
      rw [h2, h3, processEvent_enqueue w c e rest hq, ← h7, ← h5]
      exact ih (processEvent w) h4 (settled_processEvent info w hs)

/-- C2: a second well-formed call of `finish` on the same handle, whenever the
control thread gets to the first one, returns `None` with no exception raised, leaves
devices, transactions and emitted signals as they are, and the completion it posts
is never applied: once the control thread has worked off its queue, the runtime is
the one it would have reached without the second call, so no second
`deviceSetupFinished` is emitted. -/
theorem second_finish_is_no_op (self : PyThingSetupInfo) (status1 status2 : Int)
    (message1 message2 : Option String) (k : Nat) (w : Runtime)
    (h1 : WellFormed status1 message1) (h2 : WellFormed status2 message2) :
    (PyThingSetupInfo_finish self (finishArgs status2 message2)
        (afterFirstFinish self status1 message1 k w)).1 = some PyObject.pyNone ∧
    (PyThingSetupInfo_finish self (finishArgs status2 message2)
        (afterFirstFinish self status1 message1 k w)).2.pyErr =
      (afterFirstFinish self status1 message1 k w).pyErr ∧
    (PyThingSetupInfo_finish self (finishArgs status2 message2)
        (afterFirstFinish self status1 message1 k w)).2.devices =
      (afterFirstFinish self status1 message1 k w).devices ∧
    (PyThingSetupInfo_finish self (finishArgs status2 message2)
        (afterFirstFinish self status1 message1 k w)).2.transactions =
      (afterFirstFinish self status1 message1 k w).transactions ∧
    (PyThingSetupInfo_finish self (finishArgs status2 message2)
        (afterFirstFinish self status1 message1 k w)).2.emitted =
      (afterFirstFinish self status1 message1 k w).emitted ∧
    drain (PyThingSetupInfo_finish self (finishArgs status2 message2)
        (afterFirstFinish self status1 message1 k w)).2 =
      drain (afterFirstFinish self status1 message1 k w) := by
  rw [finish_wellFormed self status2 message2 _ h2]
  cases hinfo : self.info with
  | none => exact ⟨rfl, rfl, rfl, rfl, rfl, rfl⟩
  | some info =>
    refine ⟨rfl, rfl, rfl, rfl, rfl, ?_⟩
    have hs : Settled info (afterFirstFinish self status1 message1 k w) := by
      unfold afterFirstFinish
      apply settled_processEvents
      rw [finish_wellFormed self status1 message1 w h1, hinfo]
      right
      exact ⟨⟨info, "finish", status1, messageOf message1⟩, by simp [invokeMethodQueued],
        rfl, rfl⟩
    exact drain_enqueue_of_settled info ⟨info, "finish", status2, messageOf message2⟩ rfl rfl
      _ (afterFirstFinish self status1 message1 k w) rfl hs

/-- Witness of C2: `finish(0)` and then `finish(3, "again")` on the handle of
transaction 7, the control thread not having run in between. -/
theorem second_finish_is_no_op_witness :
    (PyThingSetupInfo_finish sampleHandle (finishArgs 3 (some "again"))
        (afterFirstFinish sampleHandle 0 none 0 sampleRuntime)).1 = some PyObject.pyNone ∧
    (PyThingSetupInfo_finish sampleHandle (finishArgs 3 (some "again"))
        (afterFirstFinish sampleHandle 0 none 0 sampleRuntime)).2.pyErr =
      (afterFirstFinish sampleHandle 0 none 0 sampleRuntime).pyErr ∧
    (PyThingSetupInfo_finish sampleHandle (finishArgs 3 (some "again"))
        (afterFirstFinish sampleHandle 0 none 0 sampleRuntime)).2.devices =
      (afterFirstFinish sampleHandle 0 none 0 sampleRuntime).devices ∧
    (PyThingSetupInfo_finish sampleHandle (finishArgs 3 (some "again"))
        (afterFirstFinish sampleHandle 0 none 0 sampleRuntime)).2.transactions =
      (afterFirstFinish sampleHandle 0 none 0 sampleRuntime).transactions ∧
    (PyThingSetupInfo_finish sampleHandle (finishArgs 3 (some "again"))
        (afterFirstFinish sampleHandle 0 none 0 sampleRuntime)).2.emitted =
      (afterFirstFinish sampleHandle 0 none 0 sampleRuntime).emitted ∧
    drain (PyThingSetupInfo_finish sampleHandle (finishArgs 3 (some "again"))
        (afterFirstFinish sampleHandle 0 none 0 sampleRuntime)).2 =
      drain (afterFirstFinish sampleHandle 0 none 0 sampleRuntime) :=
  second_finish_is_no_op sampleHandle 0 3 none (some "again") 0 sampleRuntime
    (by decide) (by decide)

/-- The sample run in full: after `finish(0)` and `finish(3, "again")` the control
thread configures device 1 and emits `deviceSetupFinished` for it once. -/
theorem sample_two_finishes_drained :
    drain (PyThingSetupInfo_finish sampleHandle (finishArgs 3 (some "again"))
        (afterFirstFinish sampleHandle 0 none 0 sampleRuntime)).2 =
      ⟨none, [], [(7, ⟨1, CompletionState.Finished 0 ""⟩)], [(1, SetupState.Configured)],
        [ManagerSignal.deviceSetupFinished 1 0]⟩ := by
  decide

/-! ## The hash of alarms -/

theorem hashValue_hashRemove_self {α : Type} (key : DevicePtr) (h : List (DevicePtr × α)) :
    hashValue key (hashRemove key h) = none := by
  induction h with
  | nil => rfl
  | cons head rest ih =>
    obtain ⟨k, v⟩ := head
    by_cases hk : k = key
    · simpa [hashRemove, List.filter_cons, hk] using ih
    · have ih2 : hashValue key (List.filter (fun p => p.1 != key) rest) = none := ih
      simp [hashRemove, List.filter_cons, hk, hashValue, ih2]

theorem hashValue_hashRemove_of_ne {α : Type} (key other : DevicePtr)
    (h : List (DevicePtr × α)) (hne : other ≠ key) :
    hashValue other (hashRemove key h) = hashValue other h := by
  induction h with
  | nil => rfl
  | cons head rest ih =>
    obtain ⟨k, v⟩ := head
    have ih2 : hashValue other (List.filter (fun p => p.1 != key) rest) = hashValue other rest :=
      ih
    have hko2 : ¬ key = other := fun h2 => hne h2.symm
    by_cases hk : k = key
    · subst hk
      simp [hashRemove, List.filter_cons, hashValue, ih2, hko2]
    · by_cases hko : k = other
      · subst hko
        simp [hashRemove, List.filter_cons, hk, hashValue]
      · simp [hashRemove, List.filter_cons, hk, hashValue, hko, ih2]

theorem hashValue_hashInsert_self {α : Type} (key : DevicePtr) (value : α)
    (h : List (DevicePtr × α)) : hashValue key (hashInsert key value h) = some value := by
  simp [hashInsert, hashValue]

theorem hashValue_hashInsert_of_ne {α : Type} (key other : DevicePtr) (value : α)
    (h : List (DevicePtr × α)) (hne : other ≠ key) :
    hashValue other (hashInsert key value h) = hashValue other h := by
  have hk : ¬ key = other := fun h2 => hne h2.symm
  simp [hashInsert, hashValue, hk, hashValue_hashRemove_of_ne key other h hne]

/-! ## Claims on the date/time plugin -/

theorem setupDevice_of_invalid (s : DevicePluginDateTime) (device : Device)
    (h : s.m_timeZone.isValid = false) :
    setupDevice s device = (DeviceSetupStatus.DeviceSetupStatusFailure, s) := by
  simp [setupDevice, h]

theorem setupDevice_alarm_eq (s : DevicePluginDateTime) (device : Device)
    (hclass : device.deviceClassId = alarmDeviceClassId) (htz : s.m_timeZone.isValid = true) :
    setupDevice s device =
      (DeviceSetupStatus.DeviceSetupStatusSuccess,
        { s with
          m_alarms := hashInsert device.addr (alarmOf device) s.m_alarms
          m_timerActive := true }) := by
  simp [setupDevice, htz, hclass, alarmDeviceClassId, todayDeviceClassId]

theorem setupDevice_today_eq (s : DevicePluginDateTime) (device : Device)
    (hclass : device.deviceClassId = todayDeviceClassId) (htz : s.m_timeZone.isValid = true)
    (hnone : s.m_todayDevice = none) :
    setupDevice s device =
      (DeviceSetupStatus.DeviceSetupStatusSuccess,
        { s with m_todayDevice := some device.addr, m_timerActive := true }) := by
  simp [setupDevice, htz, hclass, hnone, alarmDeviceClassId, todayDeviceClassId]

theorem setupDevice_today_taken (s : DevicePluginDateTime) (device : Device)
    (hclass : device.deviceClassId = todayDeviceClassId) (htz : s.m_timeZone.isValid = true)
    (hsome : s.m_todayDevice ≠ none) :
    setupDevice s device = (DeviceSetupStatus.DeviceSetupStatusFailure, s) := by
  simp [setupDevice, htz, hclass, hsome]

theorem setupDevice_other_eq (s : DevicePluginDateTime) (device : Device)
    (h1 : device.deviceClassId ≠ todayDeviceClassId)
    (h2 : device.deviceClassId ≠ alarmDeviceClassId) (htz : s.m_timeZone.isValid = true) :
    setupDevice s device =
      (DeviceSetupStatus.DeviceSetupStatusSuccess, { s with m_timerActive := true }) := by
  simp [setupDevice, htz, h1, h2]

theorem setupDevice_success_valid (s : DevicePluginDateTime) (device : Device)
    (h : (setupDevice s device).1 = DeviceSetupStatus.DeviceSetupStatusSuccess) :
    s.m_timeZone.isValid = true := by
  cases hv : s.m_timeZone.isValid with
  | true => rfl
  | false =>
    rw [setupDevice_of_invalid s device hv] at h
    cases h

theorem setupDevice_status (s : DevicePluginDateTime) (device : Device) :
    (setupDevice s device).1 = DeviceSetupStatus.DeviceSetupStatusSuccess ∨
    (setupDevice s device).1 = DeviceSetupStatus.DeviceSetupStatusFailure := by
  cases hv : s.m_timeZone.isValid with
  | false => rw [setupDevice_of_invalid s device hv]; exact Or.inr rfl
  | true =>
    by_cases h1 : device.deviceClassId = todayDeviceClassId
    · by_cases h3 : s.m_todayDevice = none
      · rw [setupDevice_today_eq s device h1 hv h3]; exact Or.inl rfl
      · rw [setupDevice_today_taken s device h1 hv h3]; exact Or.inr rfl
    · by_cases h2 : device.deviceClassId = alarmDeviceClassId
      · rw [setupDevice_alarm_eq s device h2 hv]; exact Or.inl rfl
      · rw [setupDevice_other_eq s device h1 h2 hv]; exact Or.inl rfl

theorem setupDevice_timeZone (s : DevicePluginDateTime) (device : Device) :
    (setupDevice s device).2.m_timeZone = s.m_timeZone := by
  cases hv : s.m_timeZone.isValid with
  | false => rw [setupDevice_of_invalid s device hv]
  | true =>
    by_cases h1 : device.deviceClassId = todayDeviceClassId
    · by_cases h3 : s.m_todayDevice = none
      · rw [setupDevice_today_eq s device h1 hv h3]
      · rw [setupDevice_today_taken s device h1 hv h3]
    · by_cases h2 : device.deviceClassId = alarmDeviceClassId
      · rw [setupDevice_alarm_eq s device h2 hv]
      · rw [setupDevice_other_eq s device h1 h2 hv]

theorem startMonitoringAutoDevices_keeps (s : DevicePluginDateTime) (myDevices : List Device) :
    (startMonitoringAutoDevices s myDevices).m_alarms = s.m_alarms ∧
    (startMonitoringAutoDevices s myDevices).m_todayDevice = s.m_todayDevice ∧
    (startMonitoringAutoDevices s myDevices).m_timeZone = s.m_timeZone := by
  unfold startMonitoringAutoDevices
  split <;> exact ⟨rfl, rfl, rfl⟩

/-- C7: `setupDevice` returns `Success` or `Failure` and nothing else, and when
the configured time zone is invalid it returns `Failure` for every device and the
plugin is left as it was: the today device, the alarms and the timer included. -/
theorem setupDevice_invalid_timezone (s : DevicePluginDateTime) (device : Device)
    (h : s.m_timeZone.isValid = false) :
    (∀ (s2 : DevicePluginDateTime) (d2 : Device),
      (setupDevice s2 d2).1 = DeviceSetupStatus.DeviceSetupStatusSuccess ∨
      (setupDevice s2 d2).1 = DeviceSetupStatus.DeviceSetupStatusFailure) ∧
    (setupDevice s device).1 = DeviceSetupStatus.DeviceSetupStatusFailure ∧
    (setupDevice s device).2 = s ∧
    (setupDevice s device).2.m_todayDevice = s.m_todayDevice ∧
    (setupDevice s device).2.m_alarms = s.m_alarms ∧
    (setupDevice s device).2.m_timerActive = s.m_timerActive := by
  refine ⟨?_, ?_⟩
  · intro s2 d2
    exact setupDevice_status s2 d2
  · rw [setupDevice_of_invalid s device h]
    exact ⟨rfl, rfl, rfl, rfl, rfl⟩

/-- Witness of C7: the alarm "Wake" is offered to a plugin with an unknown time zone. -/
theorem setupDevice_invalid_timezone_witness :
    (∀ (s2 : DevicePluginDateTime) (d2 : Device),
      (setupDevice s2 d2).1 = DeviceSetupStatus.DeviceSetupStatusSuccess ∨
      (setupDevice s2 d2).1 = DeviceSetupStatus.DeviceSetupStatusFailure) ∧
    (setupDevice lostPlugin wakeDevice).1 = DeviceSetupStatus.DeviceSetupStatusFailure ∧
    (setupDevice lostPlugin wakeDevice).2 = lostPlugin ∧
    (setupDevice lostPlugin wakeDevice).2.m_todayDevice = lostPlugin.m_todayDevice ∧
    (setupDevice lostPlugin wakeDevice).2.m_alarms = lostPlugin.m_alarms ∧
    (setupDevice lostPlugin wakeDevice).2.m_timerActive = lostPlugin.m_timerActive :=
  setupDevice_invalid_timezone lostPlugin wakeDevice rfl

/-- The conversion of a text parameter by `toInt` evaluated: a number beyond the range
of `int` is narrowed, white space around the number is dropped, and a text that spells
no `qlonglong` gives 0. -/
theorem toInt_of_text_evaluated :
    (QVariant.string "7").toInt = 7 ∧
    (QVariant.string " 7\n").toInt = 7 ∧
    (QVariant.string "4294967303").toInt = 7 ∧
    (QVariant.string "-2147483649").toInt = 2147483647 ∧
    (QVariant.string "9223372036854775808").toInt = 0 ∧
    (QVariant.string "seven").toInt = 0 ∧
    (QVariant.byteArray " 12 ").toInt = 12 := by
  decide

/-- The scenario of the spec evaluated: the alarm registered for "Wake" rings on
Mondays at 7:00, and the alarm of device 6 is still there. -/
theorem setupDevice_wake_evaluated :
    setupDevice viennaPlugin wakeDevice =
      (DeviceSetupStatus.DeviceSetupStatusSuccess,
        { viennaPlugin with
          m_timerActive := true
          m_alarms :=
            [(5, { name := "Wake", monday := true, tuesday := false, wednesday := false,
                   thursday := false, friday := false, saturday := false, sunday := false,
                   minutes := 0, hours := 7, timeType := "time", offset := 0,
                   dusk := QDateTime.null, sunrise := QDateTime.null, noon := QDateTime.null,
                   dawn := QDateTime.null, sunset := QDateTime.null }),
             (6, napAlarm)] }) := by
  decide

theorem deviceRemoved_alarm_eq (s : DevicePluginDateTime) (myDevices : List Device)
    (device : Device) (alarm : Alarm) (hclass : device.deviceClassId = alarmDeviceClassId)
    (hreg : hashValue device.addr s.m_alarms = some alarm) :
    deviceRemoved s myDevices device =
      some (startMonitoringAutoDevices
        { (if myDevices.length = 0 then { s with m_timerActive := false } else s) with
          m_alarms := hashRemove device.addr s.m_alarms } myDevices) := by
  have hnt : ¬ device.deviceClassId = todayDeviceClassId := by
    rw [hclass]; decide
  by_cases hl : myDevices.length = 0 <;>
    simp [deviceRemoved, hclass, hreg, hl, alarmDeviceClassId, todayDeviceClassId]

theorem deviceRemoved_today_eq (s : DevicePluginDateTime) (myDevices : List Device)
    (device : Device) (hclass : device.deviceClassId = todayDeviceClassId) :
    deviceRemoved s myDevices device =
      some (startMonitoringAutoDevices
        { (if myDevices.length = 0 then { s with m_timerActive := false } else s) with
          m_todayDevice := none } myDevices) := by
  by_cases hl : myDevices.length = 0 <;>
    simp [deviceRemoved, hclass, hl, alarmDeviceClassId, todayDeviceClassId]

theorem deviceRemoved_other_eq (s : DevicePluginDateTime) (myDevices : List Device)
    (device : Device) (h1 : device.deviceClassId ≠ todayDeviceClassId)
    (h2 : device.deviceClassId ≠ alarmDeviceClassId) :
    deviceRemoved s myDevices device =
      some (startMonitoringAutoDevices
        (if myDevices.length = 0 then { s with m_timerActive := false } else s) myDevices) := by
  simp [deviceRemoved, h1, h2]

/-- C9: for a device that `setupDevice` accepted, `deviceRemoved` runs through and
afterwards an alarm device has no entry in `m_alarms`, the alarms of all other
devices being untouched, and a today device is not recorded as `m_todayDevice` any
more, so that `setupDevice` accepts a today-class device again. -/
theorem deviceRemoved_releases (s0 : DevicePluginDateTime) (myDevices : List Device)
    (device : Device)
    (hacc : (setupDevice s0 device).1 = DeviceSetupStatus.DeviceSetupStatusSuccess) :
    ∃ s2 : DevicePluginDateTime,
      deviceRemoved (setupDevice s0 device).2 myDevices device = some s2 ∧
      (device.deviceClassId = alarmDeviceClassId →
        hashValue device.addr s2.m_alarms = none ∧
        ∀ other : DevicePtr, other ≠ device.addr →
          hashValue other s2.m_alarms = hashValue other (setupDevice s0 device).2.m_alarms) ∧
      (device.deviceClassId = todayDeviceClassId →
        s2.m_todayDevice = none ∧
        ∀ d2 : Device, d2.deviceClassId = todayDeviceClassId →
          (setupDevice s2 d2).1 = DeviceSetupStatus.DeviceSetupStatusSuccess) := by
  have hv : s0.m_timeZone.isValid = true := setupDevice_success_valid s0 device hacc
  have hv1 : (setupDevice s0 device).2.m_timeZone.isValid = true := by
    rw [setupDevice_timeZone]; exact hv
  by_cases h1 : device.deviceClassId = todayDeviceClassId
  · have hna : ¬ device.deviceClassId = alarmDeviceClassId := by rw [h1]; decide
    refine ⟨_, deviceRemoved_today_eq _ myDevices device h1, fun h => absurd h hna, fun _ => ?_⟩
    obtain ⟨_, ht, hz⟩ := startMonitoringAutoDevices_keeps
      { (if myDevices.length = 0 then
            { (setupDevice s0 device).2 with m_timerActive := false }
          else (setupDevice s0 device).2) with m_todayDevice := none } myDevices
    refine ⟨ht, fun d2 hd2 => ?_⟩
    rw [setupDevice_today_eq _ d2 hd2 _ ht]
    rw [hz]
    by_cases hl : myDevices.length = 0
    · simpa [hl] using hv1
    · simpa [hl] using hv1
  · by_cases h2 : device.deviceClassId = alarmDeviceClassId
    · have hreg : hashValue device.addr (setupDevice s0 device).2.m_alarms =
          some (alarmOf device) := by
        rw [setupDevice_alarm_eq s0 device h2 hv]
        exact hashValue_hashInsert_self device.addr (alarmOf device) s0.m_alarms
      refine ⟨_, deviceRemoved_alarm_eq _ myDevices device (alarmOf device) h2 hreg,
        fun _ => ?_, fun h => absurd h h1⟩
      obtain ⟨ha, _, _⟩ := startMonitoringAutoDevices_keeps
        { (if myDevices.length = 0 then
              { (setupDevice s0 device).2 with m_timerActive := false }
            else (setupDevice s0 device).2) with
          m_alarms := hashRemove device.addr (setupDevice s0 device).2.m_alarms } myDevices
      rw [ha]
      exact ⟨hashValue_hashRemove_self device.addr _,
        fun other hne => hashValue_hashRemove_of_ne device.addr other _ hne⟩
    · exact ⟨_, deviceRemoved_other_eq _ myDevices device h1 h2, fun h => absurd h h2,
        fun h => absurd h h1⟩

/-- Witness of C9: the alarm "Wake" is set up in Vienna and removed again, no other
device of the plugin being left. -/
theorem deviceRemoved_releases_witness :
    ∃ s2 : DevicePluginDateTime,
      deviceRemoved (setupDevice viennaPlugin wakeDevice).2 [] wakeDevice = some s2 ∧
      (wakeDevice.deviceClassId = alarmDeviceClassId →
        hashValue wakeDevice.addr s2.m_alarms = none ∧
        ∀ other : DevicePtr, other ≠ wakeDevice.addr →
          hashValue other s2.m_alarms =
            hashValue other (setupDevice viennaPlugin wakeDevice).2.m_alarms) ∧
      (wakeDevice.deviceClassId = todayDeviceClassId →
        s2.m_todayDevice = none ∧
        ∀ d2 : Device, d2.deviceClassId = todayDeviceClassId →
          (setupDevice s2 d2).1 = DeviceSetupStatus.DeviceSetupStatusSuccess) :=
  deviceRemoved_releases viennaPlugin [] wakeDevice (by decide)

/-- The date device set up in Vienna and removed again: the plugin forgets it, stops
the timer and announces the date device anew. -/
theorem deviceRemoved_date_evaluated :
    deviceRemoved (setupDevice viennaPlugin dateDevice).2 [] dateDevice =
      some { viennaPlugin with
        emitted :=
          [PluginSignal.autoDevicesAppeared todayDeviceClassId [dateDescriptorOf viennaPlugin]] } := by
  decide

/-- C10: `startMonitoringAutoDevices` announces the date device exactly when it is
missing. If no device of the plugin has the today class, it emits
`autoDevicesAppeared` for the today class with one descriptor of that class, titled
"Date", described by the id of the time zone and carrying the one parameter `name`
with the id of the time zone, and changes nothing else; if a device of the today
class exists, it emits nothing and changes nothing. -/
theorem startMonitoringAutoDevices_announces (s : DevicePluginDateTime)
    (myDevices : List Device) :
    ((∀ d ∈ myDevices, d.deviceClassId ≠ todayDeviceClassId) →
      startMonitoringAutoDevices s myDevices =
        { s with
          emitted := s.emitted ++
            [PluginSignal.autoDevicesAppeared todayDeviceClassId
              [{ deviceClassId := todayDeviceClassId
                 title := "Date"
                 description := s.m_timeZone.id
                 params := [⟨"name", QVariant.byteArray s.m_timeZone.id⟩] }]] }) ∧
    ((∃ d ∈ myDevices, d.deviceClassId = todayDeviceClassId) →
      startMonitoringAutoDevices s myDevices = s) := by
  constructor
  · intro h
    have hany : myDevices.any (fun device => device.deviceClassId = todayDeviceClassId)
        = false := by
      rw [List.any_eq_false]
      intro d hd
      simpa using h d hd
    simp [startMonitoringAutoDevices, hany]
  · rintro ⟨d, hd, hc⟩
    have hany : myDevices.any (fun device => device.deviceClassId = todayDeviceClassId)
        = true := by
      rw [List.any_eq_true]
      exact ⟨d, hd, by simpa using hc⟩
    simp [startMonitoringAutoDevices, hany]

/-- Witness of C10: in Vienna, with the alarm "Wake" as the only device the date
device is announced, and with the date device next to it nothing happens. -/
theorem startMonitoringAutoDevices_announces_witness :
    startMonitoringAutoDevices viennaPlugin [wakeDevice] =
        { viennaPlugin with
          emitted := viennaPlugin.emitted ++
            [PluginSignal.autoDevicesAppeared todayDeviceClassId
              [{ deviceClassId := todayDeviceClassId
                 title := "Date"
                 description := "Europe/Vienna"
                 params := [⟨"name", QVariant.byteArray "Europe/Vienna"⟩] }]] } ∧
      startMonitoringAutoDevices viennaPlugin [wakeDevice, dateDevice] = viennaPlugin :=
  ⟨(startMonitoringAutoDevices_announces viennaPlugin [wakeDevice]).1 (by decide),
    (startMonitoringAutoDevices_announces viennaPlugin [wakeDevice, dateDevice]).2
      ⟨dateDevice, by decide, rfl⟩⟩

/-! ## The states of the date device -/

theorem isStateOf_self (device : DevicePtr) (stateTypeId : StateTypeId) (value : QVariant) :
    isStateOf device stateTypeId (device, stateTypeId, value) = true := by
  simp [isStateOf]

theorem isStateOf_of_ne (device : DevicePtr) (t t2 : StateTypeId)
    (e : DevicePtr × StateTypeId × QVariant) (hne : t2 ≠ t)
    (h : isStateOf device t e = true) : isStateOf device t2 e = false := by
  simp only [isStateOf, decide_eq_true_eq] at h
  simp only [isStateOf, decide_eq_false_iff_not]
  intro h2
  exact hne (h2.2.symm.trans h.2)

theorem writtenStateValue_setStateValue_self (device : DevicePtr) (stateTypeId : StateTypeId)
    (value : QVariant) (values : StateValues) :
    writtenStateValue device stateTypeId (setStateValue device stateTypeId value values) =
      some value := by
  simp [setStateValue, writtenStateValue, isStateOf_self]

theorem writtenStateValue_filter_of_ne (device : DevicePtr) (t t2 : StateTypeId)
    (values : StateValues) (hne : t2 ≠ t) :
    writtenStateValue device t2 (values.filter (fun e => !(isStateOf device t e))) =
      writtenStateValue device t2 values := by
  induction values with
  | nil => rfl
  | cons head rest ih =>
    cases h1 : isStateOf device t head with
    | true =>
      have h2 := isStateOf_of_ne device t t2 head hne h1
      simp [List.filter_cons, h1, writtenStateValue, h2, ih]
    | false =>
      cases h2 : isStateOf device t2 head with
      | true => simp [List.filter_cons, h1, writtenStateValue, h2]
      | false => simp [List.filter_cons, h1, writtenStateValue, h2, ih]

theorem writtenStateValue_setStateValue_of_ne (device : DevicePtr) (t t2 : StateTypeId)
    (value : QVariant) (values : StateValues) (hne : t2 ≠ t) :
    writtenStateValue device t2 (setStateValue device t value values) =
      writtenStateValue device t2 values := by
  have h2 : isStateOf device t2 (device, t, value) = false :=
    isStateOf_of_ne device t t2 (device, t, value) hne (isStateOf_self device t value)
  simp only [setStateValue, writtenStateValue, h2]
  exact writtenStateValue_filter_of_ne device t t2 values hne

theorem dayOfWeek_eq (jd : Int) : (QDate.mk (some jd)).dayOfWeek = jd % 7 + 1 := by
  unfold QDate.dayOfWeek cRemainder
  simp only
  by_cases h : jd ≥ 0
  · have h0 : 0 ≤ jd := h
    simp only [h, h0, if_true]
  · have h1 : ¬ 0 ≤ jd + 1 ∨ jd + 1 = 0 := by omega
    rcases h1 with h1 | h1
    · simp only [h, h1, if_false]
      omega
    · have h2 : jd = -1 := by omega
      subst h2
      decide

theorem number_weekdayOfJulianDay (jd : Int) : (weekdayOfJulianDay jd).number = jd % 7 + 1 := by
  have hlt : (jd % 7).toNat < 7 := by omega
  have hr : jd % 7 = ((jd % 7).toNat : Int) := by omega
  unfold weekdayOfJulianDay
  rw [hr]
  generalize (jd % 7).toNat = n at hlt
  interval_cases n <;> rfl

/-- The weekday of the day after a day is the weekday that follows. -/
theorem weekdayOfJulianDay_succ (jd : Int) :
    weekdayOfJulianDay (jd + 1) = (weekdayOfJulianDay jd).next := by
  have hlt : (jd % 7).toNat < 7 := by omega
  have h1 : ((jd + 1) % 7).toNat = if (jd % 7).toNat = 6 then 0 else (jd % 7).toNat + 1 := by
    split <;> omega
  unfold weekdayOfJulianDay
  rw [h1]
  generalize (jd % 7).toNat = n at hlt
  interval_cases n <;> rfl

/-- The first of January 1970, Julian day 2440588, was a Thursday. -/
theorem weekdayOfJulianDay_epoch : weekdayOfJulianDay 2440588 = Weekday.Thursday := by
  decide

/-- C12: when a today device exists and the zone date is valid, the weekday state
that `onDayChanged` writes is an integer from 1 to 7, the number of the zone date's
weekday in the table Monday = 1, ..., Sunday = 7, and the weekend state written in the
same call is true exactly when that integer is 6 or 7. -/
theorem onDayChanged_weekday_and_weekend (longDayName longMonthName : Int → String)
    (zoneTime : QDateTime) (s : DevicePluginDateTime) (today : DevicePtr) (jd : Int)
    (htoday : s.m_todayDevice = some today) (hdate : zoneTime.date = ⟨some jd⟩) :
    ∃ n : Int,
      writtenStateValue today StateTypeId.weekdayStateTypeId
          (onDayChanged longDayName longMonthName zoneTime s).stateValues =
        some (QVariant.int n) ∧
      1 ≤ n ∧ n ≤ 7 ∧
      n = (weekdayOfJulianDay jd).number ∧
      writtenStateValue today StateTypeId.weekendStateTypeId
          (onDayChanged longDayName longMonthName zoneTime s).stateValues =
        some (QVariant.bool (decide (n = 6 ∨ n = 7))) := by
  have hn : zoneTime.date.dayOfWeek = jd % 7 + 1 := by rw [hdate]; exact dayOfWeek_eq jd
  refine ⟨zoneTime.date.dayOfWeek, ?_, by omega, by omega, ?_, ?_⟩
  · simp only [onDayChanged, htoday]
    split
    · rw [writtenStateValue_setStateValue_of_ne _ _ _ _ _ (by decide),
        writtenStateValue_setStateValue_of_ne _ _ _ _ _ (by decide),
        writtenStateValue_setStateValue_of_ne _ _ _ _ _ (by decide),
        writtenStateValue_setStateValue_self]
    · rw [writtenStateValue_setStateValue_of_ne _ _ _ _ _ (by decide),
        writtenStateValue_setStateValue_of_ne _ _ _ _ _ (by decide),
        writtenStateValue_setStateValue_of_ne _ _ _ _ _ (by decide),
        writtenStateValue_setStateValue_self]
  · rw [hn, number_weekdayOfJulianDay]
  · simp only [onDayChanged, htoday]
    split
    · rename_i h
      rw [writtenStateValue_setStateValue_self]
      simp [h]
    · rename_i h
      rw [writtenStateValue_setStateValue_self]
      simp [h]

/-- Witness of C12: the day changes to Monday, 2 November 2026, for the date device
set up in Vienna. -/
theorem onDayChanged_weekday_and_weekend_witness :
    ∃ n : Int,
      writtenStateValue 4 StateTypeId.weekdayStateTypeId
          (onDayChanged (fun _ => "Monday") (fun _ => "November") mondayMidnight
            (setupDevice viennaPlugin dateDevice).2).stateValues =
        some (QVariant.int n) ∧
      1 ≤ n ∧ n ≤ 7 ∧
      n = (weekdayOfJulianDay 2461347).number ∧
      writtenStateValue 4 StateTypeId.weekendStateTypeId
          (onDayChanged (fun _ => "Monday") (fun _ => "November") mondayMidnight
            (setupDevice viennaPlugin dateDevice).2).stateValues =
        some (QVariant.bool (decide (n = 6 ∨ n = 7))) :=
  onDayChanged_weekday_and_weekend (fun _ => "Monday") (fun _ => "November") mondayMidnight
    (setupDevice viennaPlugin dateDevice).2 4 2461347 (by decide) rfl

/-- `setupDevice` writes no state of any device. -/
theorem setupDevice_stateValues (s : DevicePluginDateTime) (device : Device) :
    (setupDevice s device).2.stateValues = s.stateValues := by
  cases hv : s.m_timeZone.isValid with
  | false => rw [setupDevice_of_invalid s device hv]
  | true =>
    by_cases h1 : device.deviceClassId = todayDeviceClassId
    · by_cases h3 : s.m_todayDevice = none
      · rw [setupDevice_today_eq s device h1 hv h3]
      · rw [setupDevice_today_taken s device h1 hv h3]
    · by_cases h2 : device.deviceClassId = alarmDeviceClassId
      · rw [setupDevice_alarm_eq s device h2 hv]
      · rw [setupDevice_other_eq s device h1 h2 hv]

/-- C11, the code at the failing input: a plugin constructed in Vienna on Saturday,
31 October 2026, accepts the date device, and neither `setupDevice` nor the tick of
the timer one second later writes the weekend state, which keeps the default of the
device class (taken as false here) although the weekday is 6, a Saturday. -/
theorem weekend_state_unwritten_on_saturday :
    (setupDevice (newPlugin viennaZone saturdayMorning) dateDevice).1 =
      DeviceSetupStatus.DeviceSetupStatusSuccess ∧
    (setupDevice (newPlugin viennaZone saturdayMorning) dateDevice).2.m_todayDevice = some 4 ∧
    saturdayMorning.date.dayOfWeek = 6 ∧
    writtenStateValue 4 StateTypeId.weekendStateTypeId
      (setupDevice (newPlugin viennaZone saturdayMorning) dateDevice).2.stateValues = none ∧
    (onTimeout (quietTick saturdayMorningLater)
        (setupDevice (newPlugin viennaZone saturdayMorning) dateDevice).2).map
      (fun s => (s.m_todayDevice, writtenStateValue 4 StateTypeId.weekendStateTypeId s.stateValues))
      = some (some 4, none) ∧
    weekendState false 4 (setupDevice (newPlugin viennaZone saturdayMorning) dateDevice).2 =
      false := by
  decide

/-- Whatever default the device class gives the weekend state, there is a day on
which a date device that was just set up shows the wrong weekend state. -/
theorem weekend_state_wrong_for_every_default (defaultValue : Bool) :
    ∃ now : QDateTime,
      (setupDevice (newPlugin viennaZone now) dateDevice).2.m_todayDevice = some 4 ∧
      weekendState defaultValue 4 (setupDevice (newPlugin viennaZone now) dateDevice).2 ≠
        decide (now.date.dayOfWeek = 6 ∨ now.date.dayOfWeek = 7) := by
  cases defaultValue with
  | false => exact ⟨saturdayMorning, by decide, by decide⟩
  | true => exact ⟨mondayMidnight, by decide, by decide⟩

theorem foldl_append_singleton {α β : Type} (f : α → β) (xs : List α) (acc : List β) :
    xs.foldl (fun acc x => acc ++ [f x]) acc = acc ++ xs.map f := by
  induction xs generalizing acc with
  | nil => simp
  | cons x rest ih => simp [List.foldl_cons, ih]

/-- C13: `configurationDescription` returns one parameter type: it is named
"timezone", has the string type and the default "Europe/Vienna", and its allowed
values are the available time zone ids in the order of their enumeration; the result
is the same in every state of the plugin. -/
theorem configurationDescription_timezone (s : DevicePluginDateTime)
    (availableTimeZoneIds : List String) :
    configurationDescription s availableTimeZoneIds =
      [{ name := "timezone"
         type := QVariantType.String
         defaultValue := QVariant.string "Europe/Vienna"
         allowedValues := availableTimeZoneIds.map QVariant.byteArray }] ∧
    ∀ s2 : DevicePluginDateTime,
      configurationDescription s2 availableTimeZoneIds =
        configurationDescription s availableTimeZoneIds := by
  constructor
  · simp [configurationDescription, foldl_append_singleton]
  · intro s2
    rfl

/-! ## Bus devices -/

theorem SPIDevice_afterCall (d : SPIDevice) (c : SPIDeviceCall) : d.afterCall c = d := by
  cases c <;> rfl

theorem SPIDevice_afterCalls (d : SPIDevice) (calls : List SPIDeviceCall) :
    d.afterCalls calls = d := by
  induction calls with
  | nil => rfl
  | cons c rest ih =>
    show (d.afterCall c).afterCalls rest = d
    rw [SPIDevice_afterCall, ih]

/-- C14: an `SPIDevice` constructed with a port name and an address reports that
port name and that address, and still does after any sequence of calls of its member
functions, the default `readData` (which returns no bytes) and `writeData` (which
returns false) included. -/
theorem SPIDevice_is_passive (portName : String) (address : Int)
    (calls : List SPIDeviceCall) :
    (SPIDevice.construct portName address).portName = portName ∧
    (SPIDevice.construct portName address).address = address ∧
    ((SPIDevice.construct portName address).afterCalls calls).portName = portName ∧
    ((SPIDevice.construct portName address).afterCalls calls).address = address ∧
    (∀ (d : SPIDevice) (fileDescriptor : Int) (data : ByteBuffer),
      d.readData fileDescriptor = ([], d) ∧ d.writeData fileDescriptor data = (false, d)) := by
  rw [SPIDevice_afterCalls]
  exact ⟨rfl, rfl, rfl, rfl, fun _ _ _ => ⟨rfl, rfl⟩⟩

/-! ## The bus manager -/

theorem stateOf_setState_self (m : BusManager) (dev : BusDevicePtr) (st : BusDeviceState) :
    (m.setState dev st).stateOf dev = st := by
  simp [BusManager.stateOf, BusManager.setState, hashValue_hashInsert_self]

theorem stateOf_setState_of_ne (m : BusManager) (dev other : BusDevicePtr)
    (st : BusDeviceState) (hne : other ≠ dev) :
    (m.setState dev st).stateOf other = m.stateOf other := by
  simp [BusManager.stateOf, BusManager.setState, hashValue_hashInsert_of_ne dev other st _ hne]

theorem pollStep_devices (m : BusManager) (dev : BusDevicePtr) :
    (m.pollStep dev).devices = m.devices := by
  unfold BusManager.pollStep
  split <;> rfl

theorem pollStep_stateOf (m : BusManager) (dev other : BusDevicePtr) :
    (m.pollStep dev).stateOf other = m.stateOf other := by
  simp [BusManager.stateOf, pollStep_devices]

theorem pollStep_readsOf_closed (m : BusManager) (dev other : BusDevicePtr)
    (hclosed : (m.stateOf dev).isOpen = false) :
    (m.pollStep other).readsOf dev = m.readsOf dev := by
  unfold BusManager.pollStep BusManager.readsOf
  split
  · rename_i h
    have hne : other ≠ dev := by
      intro he
      rw [he, hclosed] at h
      exact absurd h.1 (by decide)
    have hb : (other == dev) = false := by simpa using hne
    simp [List.count_append, List.count_cons, hb]
  · rfl

theorem pollSteps_readsOf_closed (schedule : List BusDevicePtr) (m : BusManager)
    (dev : BusDevicePtr) (hclosed : (m.stateOf dev).isOpen = false) :
    (m.pollSteps schedule).readsOf dev = m.readsOf dev := by
  induction schedule generalizing m with
  | nil => rfl
  | cons d rest ih =>
    show ((m.pollStep d).pollSteps rest).readsOf dev = m.readsOf dev
    rw [ih (m.pollStep d) (by rw [pollStep_stateOf]; exact hclosed),
      pollStep_readsOf_closed m dev d hclosed]

/-- C15: on a bus device that has not been opened `startReading` returns false, leaves
the manager as it was and no worker ever invokes the read behaviour of the device;
`stopReading` on a device that is not being read leaves the manager as it was. -/
theorem startReading_requires_open (m : BusManager) (dev : BusDevicePtr) (interval : Nat)
    (schedule : List BusDevicePtr) (m2 : BusManager) (dev2 : BusDevicePtr)
    (hclosed : (m.stateOf dev).isOpen = false)
    (hnever : (m2.stateOf dev2).pollingInterval = none) :
    m.startReading dev interval = (false, m) ∧
    (((m.startReading dev interval).2).pollSteps schedule).readsOf dev = m.readsOf dev ∧
    m2.stopReading dev2 = m2 := by
  have h1 : m.startReading dev interval = (false, m) := by
    simp [BusManager.startReading, hclosed]
  refine ⟨h1, ?_, ?_⟩
  · rw [h1]
    exact pollSteps_readsOf_closed schedule m dev hclosed
  · simp [BusManager.stopReading, hnever]

/-- Witness of C15: device 2 was never opened, and the open device 1 was never read. -/
theorem startReading_requires_open_witness :
    sampleManager.startReading 2 1000 = (false, sampleManager) ∧
    (((sampleManager.startReading 2 1000).2).pollSteps [2, 1, 2]).readsOf 2 =
      sampleManager.readsOf 2 ∧
    sampleManager.stopReading 1 = sampleManager :=
  startReading_requires_open sampleManager 2 1000 [2, 1, 2] sampleManager 1
    (by decide) (by decide)

theorem buffersFor_append (dev : BusDevicePtr) (xs ys : List (BusDevicePtr × ByteBuffer)) :
    buffersFor dev (xs ++ ys) = buffersFor dev xs ++ buffersFor dev ys := by
  simp [buffersFor]

theorem writeData_open (m : BusManager) (dev : BusDevicePtr) (bytes : ByteBuffer)
    (hopen : (m.stateOf dev).isOpen = true) :
    (m.writeData dev bytes).2 =
      m.setState dev { m.stateOf dev with writeQueue := (m.stateOf dev).writeQueue ++ [bytes] } := by
  simp [BusManager.writeData, hopen]

theorem writeData_writeCalls (m : BusManager) (dev : BusDevicePtr) (bytes : ByteBuffer) :
    (m.writeData dev bytes).2.writeCalls = m.writeCalls := by
  unfold BusManager.writeData
  split <;> rfl

theorem writeData_stateOf_of_ne (m : BusManager) (dev other : BusDevicePtr)
    (bytes : ByteBuffer) (hne : other ≠ dev) :
    (m.writeData dev bytes).2.stateOf other = m.stateOf other := by
  unfold BusManager.writeData
  split
  · exact stateOf_setState_of_ne m dev other _ hne
  · rfl

theorem writeAll_writeCalls (writes : List (BusDevicePtr × ByteBuffer)) (m : BusManager) :
    (m.writeAll writes).writeCalls = m.writeCalls := by
  induction writes generalizing m with
  | nil => rfl
  | cons w rest ih =>
    show ((m.writeData w.1 w.2).2.writeAll rest).writeCalls = m.writeCalls
    rw [ih, writeData_writeCalls]

theorem writeAll_stateOf (writes : List (BusDevicePtr × ByteBuffer)) (m : BusManager)
    (dev : BusDevicePtr) (hopen : (m.stateOf dev).isOpen = true) :
    (m.writeAll writes).stateOf dev =
      { m.stateOf dev with
        writeQueue := (m.stateOf dev).writeQueue ++ buffersFor dev writes } := by
  induction writes generalizing m with
  | nil => simp [BusManager.writeAll, buffersFor]
  | cons w rest ih =>
    show ((m.writeData w.1 w.2).2.writeAll rest).stateOf dev = _
    by_cases hw : w.1 = dev
    · have hst : (m.writeData w.1 w.2).2.stateOf dev =
          { m.stateOf dev with writeQueue := (m.stateOf dev).writeQueue ++ [w.2] } := by
        rw [hw, writeData_open m dev w.2 hopen, stateOf_setState_self]
      rw [ih _ (by rw [hst]; exact hopen), hst]
      simp [buffersFor, List.filter_cons, hw]
    · have hst : (m.writeData w.1 w.2).2.stateOf dev = m.stateOf dev :=
        writeData_stateOf_of_ne m w.1 dev w.2 (fun h => hw h.symm)
      rw [ih _ (by rw [hst]; exact hopen), hst]
      simp [buffersFor, List.filter_cons, hw]

theorem writeStep_invariant (m : BusManager) (d dev : BusDevicePtr) :
    (m.writeStep d).writtenTo dev ++ ((m.writeStep d).stateOf dev).writeQueue =
      m.writtenTo dev ++ (m.stateOf dev).writeQueue := by
  unfold BusManager.writeStep
  cases hq : (m.stateOf d).writeQueue with
  | nil => rfl
  | cons bytes rest =>
    by_cases hd : d = dev
    · subst hd
      have h1 : ({ m.setState d { m.stateOf d with writeQueue := rest } with
            writeCalls := m.writeCalls ++ [(d, bytes)] } : BusManager).stateOf d =
          { m.stateOf d with writeQueue := rest } :=
        stateOf_setState_self m d _
      simp only [h1]
      simp [BusManager.writtenTo, buffersFor_append, buffersFor, hq]
    · have h1 : ({ m.setState d { m.stateOf d with writeQueue := rest } with
            writeCalls := m.writeCalls ++ [(d, bytes)] } : BusManager).stateOf dev =
          m.stateOf dev :=
        stateOf_setState_of_ne m d dev _ (fun h => hd h.symm)
      simp only [h1]
      simp [BusManager.writtenTo, buffersFor_append, buffersFor, hd]

theorem writeStep_queue_length (m : BusManager) (d dev : BusDevicePtr) :
    ((m.writeStep d).stateOf dev).writeQueue.length =
      (m.stateOf dev).writeQueue.length - (if d = dev then 1 else 0) := by
  unfold BusManager.writeStep
  cases hq : (m.stateOf d).writeQueue with
  | nil =>
    by_cases hd : d = dev
    · subst hd
      simp [hq]
    · simp [hd]
  | cons bytes rest =>
    by_cases hd : d = dev
    · subst hd
      have h1 : ({ m.setState d { m.stateOf d with writeQueue := rest } with
            writeCalls := m.writeCalls ++ [(d, bytes)] } : BusManager).stateOf d =
          { m.stateOf d with writeQueue := rest } :=
        stateOf_setState_self m d _
      simp [h1, hq]
    · have h1 : ({ m.setState d { m.stateOf d with writeQueue := rest } with
            writeCalls := m.writeCalls ++ [(d, bytes)] } : BusManager).stateOf dev =
          m.stateOf dev :=
        stateOf_setState_of_ne m d dev _ (fun h => hd h.symm)
      simp [h1, hd]

theorem writeSteps_cons (m : BusManager) (d : BusDevicePtr) (rest : List BusDevicePtr) :
    m.writeSteps (d :: rest) = (m.writeStep d).writeSteps rest := rfl

theorem writeSteps_invariant (schedule : List BusDevicePtr) (m : BusManager)
    (dev : BusDevicePtr) :
    (m.writeSteps schedule).writtenTo dev ++ ((m.writeSteps schedule).stateOf dev).writeQueue =
      m.writtenTo dev ++ (m.stateOf dev).writeQueue := by
  induction schedule generalizing m with
  | nil => rfl
  | cons d rest ih =>
    rw [writeSteps_cons, ih (m.writeStep d), writeStep_invariant]

theorem writeSteps_queue_length (schedule : List BusDevicePtr) (m : BusManager)
    (dev : BusDevicePtr) :
    ((m.writeSteps schedule).stateOf dev).writeQueue.length =
      (m.stateOf dev).writeQueue.length - schedule.count dev := by
  induction schedule generalizing m with
  | nil => simp [BusManager.writeSteps]
  | cons d rest ih =>
    rw [writeSteps_cons, ih (m.writeStep d), writeStep_queue_length, List.count_cons]
    by_cases hd : d = dev
    · simp [hd]; omega
    · have hd2 : (d == dev) = false := by simpa using hd
      simp [hd, hd2]

/-- C16: bus writes are first in, first out for each device. For an open device with
no pending write and a sequence of `writeData` calls, some of them to other devices,
the buffers the write behaviour of the device was invoked with, followed by the
buffers still pending, are at every moment the buffers written to that device, in the
order of the calls; once the workers have served the device as often as buffers were
written to it, its write behaviour has been invoked with exactly these buffers in
that order. -/
theorem bus_writes_are_fifo (m : BusManager) (dev : BusDevicePtr)
    (writes : List (BusDevicePtr × ByteBuffer)) (schedule : List BusDevicePtr)
    (hopen : (m.stateOf dev).isOpen = true) (hempty : (m.stateOf dev).writeQueue = []) :
    ((m.writeAll writes).writeSteps schedule).writtenTo dev ++
        (((m.writeAll writes).writeSteps schedule).stateOf dev).writeQueue =
      m.writtenTo dev ++ buffersFor dev writes ∧
    ((buffersFor dev writes).length ≤ schedule.count dev →
      ((m.writeAll writes).writeSteps schedule).writtenTo dev =
        m.writtenTo dev ++ buffersFor dev writes) := by
  have hinv : ((m.writeAll writes).writeSteps schedule).writtenTo dev ++
        (((m.writeAll writes).writeSteps schedule).stateOf dev).writeQueue =
      m.writtenTo dev ++ buffersFor dev writes := by
    rw [writeSteps_invariant, writeAll_stateOf writes m dev hopen, hempty]
    simp [BusManager.writtenTo, writeAll_writeCalls]
  refine ⟨hinv, fun hdrain => ?_⟩
  have hlen := writeSteps_queue_length schedule (m.writeAll writes) dev
  rw [writeAll_stateOf writes m dev hopen, hempty] at hlen
  have hnil : (((m.writeAll writes).writeSteps schedule).stateOf dev).writeQueue = [] := by
    apply List.length_eq_zero.mp
    rw [hlen]
    simp only [List.nil_append]
    omega
  rw [hnil, List.append_nil] at hinv
  exact hinv

/-- Witness of C16: three buffers are written to the open device 1, one to device 3
in between, and the workers serve device 1 three times. -/
theorem bus_writes_are_fifo_witness :
    ((sampleManager.writeAll sampleWrites).writeSteps [3, 1, 1, 3, 1]).writtenTo 1 ++
        (((sampleManager.writeAll sampleWrites).writeSteps [3, 1, 1, 3, 1]).stateOf 1).writeQueue =
      sampleManager.writtenTo 1 ++ buffersFor 1 sampleWrites ∧
    ((buffersFor 1 sampleWrites).length ≤ [3, 1, 1, 3, 1].count 1 →
      ((sampleManager.writeAll sampleWrites).writeSteps [3, 1, 1, 3, 1]).writtenTo 1 =
        sampleManager.writtenTo 1 ++ buffersFor 1 sampleWrites) :=
  bus_writes_are_fifo sampleManager 1 sampleWrites [3, 1, 1, 3, 1] (by decide) (by decide)

/-- The sample evaluated: the write behaviour of device 1 saw `[10]`, `[11, 12]` and
`[13]` in this order, and nothing is pending. -/
theorem sample_bus_writes_evaluated :
    ((sampleManager.writeAll sampleWrites).writeSteps [3, 1, 1, 3, 1]).writtenTo 1 =
      [[10], [11, 12], [13]] ∧
    (((sampleManager.writeAll sampleWrites).writeSteps [3, 1, 1, 3, 1]).stateOf 1).writeQueue =
      [] := by
  decide

/-! ## The cloud authenticator -/

/-- C17: `startAuthentication` returns true exactly when user name and password are
both non-empty or the refresh token is non-empty. With user name and password it
posts one token request and no refresh request; otherwise, with a refresh token, it
posts one refresh request and no token request; and when it returns false nothing is
posted and the refresh timer is stopped. -/
theorem startAuthentication_grants (toBase64 : String → String) (reply : Nat)
    (s : CloudAuthenticator) :
    ((s.startAuthentication toBase64 reply).1 = true ↔
      (s.m_username.isEmpty = false ∧ s.m_password.isEmpty = false) ∨
        s.m_refreshToken.isEmpty = false) ∧
    (s.m_username.isEmpty = false ∧ s.m_password.isEmpty = false →
      (s.startAuthentication toBase64 reply).2.m_tokenRequests = s.m_tokenRequests ++ [reply] ∧
      (s.startAuthentication toBase64 reply).2.m_refreshTokenRequests =
        s.m_refreshTokenRequests ∧
      (s.startAuthentication toBase64 reply).2.posted =
        s.posted ++ [(reply,
          { url := s.m_url
            authorization := s.basicHeader toBase64
            contentType := "application/x-www-form-urlencoded"
            data := [("grant_type", "password"), ("username", s.m_username),
              ("password", s.m_password)] })]) ∧
    (¬ (s.m_username.isEmpty = false ∧ s.m_password.isEmpty = false) →
      s.m_refreshToken.isEmpty = false →
      (s.startAuthentication toBase64 reply).2.m_refreshTokenRequests =
        s.m_refreshTokenRequests ++ [reply] ∧
      (s.startAuthentication toBase64 reply).2.m_tokenRequests = s.m_tokenRequests ∧
      (s.startAuthentication toBase64 reply).2.posted =
        s.posted ++ [(reply,
          { url := s.m_url
            authorization := s.basicHeader toBase64
            contentType := "application/x-www-form-urlencoded"
            data := [("grant_type", "refresh_token"), ("refresh_token", s.m_refreshToken)] })]) ∧
    ((s.startAuthentication toBase64 reply).1 = false →
      (s.startAuthentication toBase64 reply).2.m_tokenRequests = s.m_tokenRequests ∧
      (s.startAuthentication toBase64 reply).2.m_refreshTokenRequests =
        s.m_refreshTokenRequests ∧
      (s.startAuthentication toBase64 reply).2.posted = s.posted ∧
      (s.startAuthentication toBase64 reply).2.m_timerActive = false) := by
  cases hu : s.m_username.isEmpty <;> cases hp : s.m_password.isEmpty <;>
    cases hr : s.m_refreshToken.isEmpty <;>
    simp [CloudAuthenticator.startAuthentication, CloudAuthenticator.refreshTimeout,
      CloudAuthenticator.stopAuthentication, CloudAuthenticator.setQuery,
      CloudAuthenticator.basicHeader, hu, hp, hr]

/-- Witness of C17: the password grant, the refresh grant and the refusal, each
evaluated. -/
theorem startAuthentication_grants_witness :
    ((fullAuthenticator.startAuthentication id 1).2.m_tokenRequests = [] ++ [1] ∧
      (fullAuthenticator.startAuthentication id 1).2.m_refreshTokenRequests = [] ∧
      (fullAuthenticator.startAuthentication id 1).2.posted =
        [] ++ [(1,
          { url := "https://cloud.example/oauth2/token"
            authorization := fullAuthenticator.basicHeader id
            contentType := "application/x-www-form-urlencoded"
            data := [("grant_type", "password"), ("username", "ada"), ("password", "pw")] })]) ∧
    ((refreshAuthenticator.startAuthentication id 2).2.m_refreshTokenRequests = [] ++ [2] ∧
      (refreshAuthenticator.startAuthentication id 2).2.m_tokenRequests = [] ∧
      (refreshAuthenticator.startAuthentication id 2).2.posted =
        [] ++ [(2,
          { url := ""
            authorization := refreshAuthenticator.basicHeader id
            contentType := "application/x-www-form-urlencoded"
            data := [("grant_type", "refresh_token"), ("refresh_token", "r3fr3sh")] })]) ∧
    ((bareAuthenticator.startAuthentication id 3).2.m_tokenRequests = [] ∧
      (bareAuthenticator.startAuthentication id 3).2.m_refreshTokenRequests = [] ∧
      (bareAuthenticator.startAuthentication id 3).2.posted = [] ∧
      (bareAuthenticator.startAuthentication id 3).2.m_timerActive = false) :=
  ⟨(startAuthentication_grants id 1 fullAuthenticator).2.1 (by decide),
    (startAuthentication_grants id 2 refreshAuthenticator).2.2.1 (by decide) (by decide),
    (startAuthentication_grants id 3 bareAuthenticator).2.2.2 (by decide)⟩

/-! ## The timer tick and the configuration of the plugin -/

theorem sameConfiguration_refl (s : DevicePluginDateTime) : SameConfiguration s s :=
  ⟨rfl, rfl, rfl⟩

theorem sameConfiguration_trans {a b c : DevicePluginDateTime}
    (h1 : SameConfiguration a b) (h2 : SameConfiguration b c) : SameConfiguration a c :=
  ⟨h1.1.trans h2.1, h1.2.1.trans h2.2.1, h1.2.2.trans h2.2.2⟩

theorem sameConfiguration_emitEvent (eventTypeId : EventTypeId) (device : DevicePtr)
    (s : DevicePluginDateTime) : SameConfiguration (emitEvent eventTypeId device s) s :=
  ⟨rfl, rfl, rfl⟩

theorem sameConfiguration_onDayChanged (longDayName longMonthName : Int → String)
    (zoneTime : QDateTime) (s : DevicePluginDateTime) :
    SameConfiguration (onDayChanged longDayName longMonthName zoneTime s) s := by
  unfold onDayChanged
  split <;> exact ⟨rfl, rfl, rfl⟩

theorem sameConfiguration_onHourChanged (inp : TickInputs) (s : DevicePluginDateTime) :
    SameConfiguration (onHourChanged inp s) s := by
  unfold onHourChanged searchGeoLocation
  split <;> exact ⟨rfl, rfl, rfl⟩

theorem sameConfiguration_validateTimeTypes (dateTime : QDateTime)
    (s : DevicePluginDateTime) : SameConfiguration (validateTimeTypes dateTime s) s := by
  unfold validateTimeTypes
  split
  · exact sameConfiguration_refl _
  · repeat' split
    all_goals first
      | exact sameConfiguration_emitEvent _ _ _
      | exact sameConfiguration_refl _

theorem sameConfiguration_validateAlarms (fires : Alarm → QDateTime → Bool)
    (zoneTime : QDateTime) (devices : List Device) (s s2 : DevicePluginDateTime)
    (h : validateAlarms fires zoneTime devices s = some s2) : SameConfiguration s2 s := by
  induction devices generalizing s with
  | nil =>
    simp only [validateAlarms, Option.some.injEq] at h
    rw [← h]
    exact sameConfiguration_refl s
  | cons device rest ih =>
    simp only [validateAlarms] at h
    cases ha : hashValue device.addr s.m_alarms with
    | none => rw [ha] at h; cases h
    | some alarm =>
      rw [ha] at h
      simp only at h
      have h2 := ih _ h
      refine sameConfiguration_trans h2 ?_
      split
      · exact sameConfiguration_emitEvent _ _ _
      · exact sameConfiguration_refl _

theorem validateAlarms_isSome (fires : Alarm → QDateTime → Bool) (zoneTime : QDateTime)
    (devices : List Device) (s : DevicePluginDateTime) (hreg : AlarmsRegistered devices s) :
    ∃ s2, validateAlarms fires zoneTime devices s = some s2 := by
  induction devices generalizing s with
  | nil => exact ⟨s, rfl⟩
  | cons device rest ih =>
    simp only [validateAlarms]
    cases ha : hashValue device.addr s.m_alarms with
    | none => exact absurd ha (hreg device (List.mem_cons_self device rest))
    | some alarm =>
      simp only
      apply ih
      intro d hd
      have h1 := hreg d (List.mem_cons_of_mem device hd)
      split
      · exact h1
      · exact h1

theorem alarmsRegistered_of_same (devices : List Device) (s s2 : DevicePluginDateTime)
    (h : SameConfiguration s2 s) (hreg : AlarmsRegistered devices s) :
    AlarmsRegistered devices s2 := by
  intro d hd
  rw [h.2.1]
  exact hreg d hd

/-- The slots before the alarms are validated: the day and the hour have changed or not. -/
theorem sameConfiguration_dayAndHour (inp : TickInputs) (s : DevicePluginDateTime) :
    SameConfiguration
      (if inp.zoneTime.time.hour ≠ s.m_currentDateTime.time.hour then
        onHourChanged inp
          (if inp.zoneTime.date ≠ s.m_currentDateTime.date then
            onDayChanged inp.longDayName inp.longMonthName inp.dayZoneTime s
          else s)
      else
        (if inp.zoneTime.date ≠ s.m_currentDateTime.date then
          onDayChanged inp.longDayName inp.longMonthName inp.dayZoneTime s
        else s)) s := by
  have hday : SameConfiguration
      (if inp.zoneTime.date ≠ s.m_currentDateTime.date then
        onDayChanged inp.longDayName inp.longMonthName inp.dayZoneTime s
      else s) s := by
    split
    · exact sameConfiguration_onDayChanged _ _ _ _
    · exact sameConfiguration_refl _
  split
  · exact sameConfiguration_trans (sameConfiguration_onHourChanged _ _) hday
  · exact hday

theorem sameConfiguration_onTimeout (inp : TickInputs) (s s2 : DevicePluginDateTime)
    (h : onTimeout inp s = some s2) : SameConfiguration s2 s := by
  have hdh := sameConfiguration_dayAndHour inp s
  unfold onTimeout at h
  simp only at h
  generalize (if inp.zoneTime.time.hour ≠ s.m_currentDateTime.time.hour then
        onHourChanged inp
          (if inp.zoneTime.date ≠ s.m_currentDateTime.date then
            onDayChanged inp.longDayName inp.longMonthName inp.dayZoneTime s
          else s)
      else
        (if inp.zoneTime.date ≠ s.m_currentDateTime.date then
          onDayChanged inp.longDayName inp.longMonthName inp.dayZoneTime s
        else s)) = sdh at h hdh
  split at h
  · cases h
  · rename_i s3 hs3
    split at h
    · cases h
    · rename_i s4 hs4
      cases h
      have h4 := sameConfiguration_validateAlarms _ _ _ _ _ hs4
      have h3 : SameConfiguration s3 sdh := by
        split at hs3
        · exact sameConfiguration_validateAlarms _ _ _ _ _ hs3
        · cases hs3
          exact sameConfiguration_refl _
      have h5 := sameConfiguration_validateTimeTypes inp.zoneTime s4
      exact sameConfiguration_trans ⟨h5.1, h5.2.1, h5.2.2⟩
        (sameConfiguration_trans h4 (sameConfiguration_trans h3 hdh))

theorem onTimeout_isSome (inp : TickInputs) (s : DevicePluginDateTime)
    (hreg : AlarmsRegistered inp.configuredAlarmDevices s) :
    ∃ s2, onTimeout inp s = some s2 := by
  have hdh := sameConfiguration_dayAndHour inp s
  unfold onTimeout
  simp only
  generalize (if inp.zoneTime.time.hour ≠ s.m_currentDateTime.time.hour then
        onHourChanged inp
          (if inp.zoneTime.date ≠ s.m_currentDateTime.date then
            onDayChanged inp.longDayName inp.longMonthName inp.dayZoneTime s
          else s)
      else
        (if inp.zoneTime.date ≠ s.m_currentDateTime.date then
          onDayChanged inp.longDayName inp.longMonthName inp.dayZoneTime s
        else s)) = sdh at hdh
  have hreg2 := alarmsRegistered_of_same _ s sdh hdh hreg
  have hmin : ∃ s3,
      (if inp.zoneTime.time.minute ≠ s.m_currentDateTime.time.minute then
        onMinuteChanged inp sdh else some sdh) = some s3 ∧ SameConfiguration s3 sdh := by
    split
    · obtain ⟨s3, hs3⟩ := validateAlarms_isSome inp.validate inp.minuteZoneTime _ sdh hreg2
      exact ⟨s3, hs3, sameConfiguration_validateAlarms _ _ _ _ _ hs3⟩
    · exact ⟨sdh, rfl, sameConfiguration_refl _⟩
  obtain ⟨s3, hs3, hsame3⟩ := hmin
  rw [hs3]
  simp only
  obtain ⟨s4, hs4⟩ := validateAlarms_isSome inp.validateTimes inp.zoneTime _ s3
    (alarmsRegistered_of_same _ sdh s3 hsame3 hreg2)
  rw [hs4]
  exact ⟨_, rfl⟩

/-- C19: `onConfigValueChanged` sets `m_timeZone` to the zone the value names when
that zone is valid, and leaves `m_timeZone` as it was when it is not; the update of
the times that follows does not touch the time zone, and it runs through when every
configured alarm device has its alarm registered. -/
theorem onConfigValueChanged_timeZone (availableTimeZoneIds : List String)
    (inp : TickInputs) (paramName : String) (value : QVariant) (s : DevicePluginDateTime) :
    (∀ s2, onConfigValueChanged availableTimeZoneIds inp paramName value s = some s2 →
      ((QTimeZone.fromId availableTimeZoneIds value.toByteArray).isValid = true →
        s2.m_timeZone = QTimeZone.fromId availableTimeZoneIds value.toByteArray) ∧
      ((QTimeZone.fromId availableTimeZoneIds value.toByteArray).isValid = false →
        s2.m_timeZone = s.m_timeZone)) ∧
    (AlarmsRegistered inp.configuredAlarmDevices s →
      ∃ s2, onConfigValueChanged availableTimeZoneIds inp paramName value s = some s2) := by
  constructor
  · intro s2 h
    unfold onConfigValueChanged at h
    simp only at h
    have hsame := sameConfiguration_onTimeout inp _ s2 h
    constructor
    · intro hv
      rw [hsame.1]
      simp [hv]
    · intro hv
      rw [hsame.1]
      simp [hv]
  · intro hreg
    unfold onConfigValueChanged
    simp only
    apply onTimeout_isSome
    split
    · exact hreg
    · exact hreg

/-- Witness of C19: in Vienna the configuration is changed to "Europe/Berlin", which
the system knows, and to "Mars/Olympus", which it does not know. -/
theorem onConfigValueChanged_timeZone_witness :
    (∃ s2, onConfigValueChanged sampleZoneIds (quietTick saturdayMorningLater) "timezone"
        (QVariant.string "Europe/Berlin") viennaPlugin = some s2 ∧
      s2.m_timeZone = ⟨"Europe/Berlin", true⟩) ∧
    (∃ s2, onConfigValueChanged sampleZoneIds (quietTick saturdayMorningLater) "timezone"
        (QVariant.string "Mars/Olympus") viennaPlugin = some s2 ∧
      s2.m_timeZone = viennaPlugin.m_timeZone) := by
  obtain ⟨a, ha⟩ := (onConfigValueChanged_timeZone sampleZoneIds
    (quietTick saturdayMorningLater) "timezone" (QVariant.string "Europe/Berlin")
    viennaPlugin).2 (by intro d hd; cases hd)
  obtain ⟨b, hb⟩ := (onConfigValueChanged_timeZone sampleZoneIds
    (quietTick saturdayMorningLater) "timezone" (QVariant.string "Mars/Olympus")
    viennaPlugin).2 (by intro d hd; cases hd)
  exact ⟨⟨a, ha, ((onConfigValueChanged_timeZone sampleZoneIds
      (quietTick saturdayMorningLater) "timezone" (QVariant.string "Europe/Berlin")
      viennaPlugin).1 a ha).1 (by decide)⟩,
    ⟨b, hb, ((onConfigValueChanged_timeZone sampleZoneIds
      (quietTick saturdayMorningLater) "timezone" (QVariant.string "Mars/Olympus")
      viennaPlugin).1 b hb).2 (by decide)⟩⟩

/-! ## The one date device -/

theorem setupDevice_todayDevice_cases (s : DevicePluginDateTime) (device : Device) :
    (setupDevice s device).2.m_todayDevice = s.m_todayDevice ∨
    (device.deviceClassId = todayDeviceClassId ∧
      (setupDevice s device).1 = DeviceSetupStatus.DeviceSetupStatusSuccess ∧
      s.m_todayDevice = none ∧
      (setupDevice s device).2.m_todayDevice = some device.addr) := by
  cases hv : s.m_timeZone.isValid with
  | false => rw [setupDevice_of_invalid s device hv]; exact Or.inl rfl
  | true =>
    by_cases h1 : device.deviceClassId = todayDeviceClassId
    · by_cases h3 : s.m_todayDevice = none
      · rw [setupDevice_today_eq s device h1 hv h3]
        exact Or.inr ⟨h1, rfl, h3, rfl⟩
      · rw [setupDevice_today_taken s device h1 hv h3]; exact Or.inl rfl
    · by_cases h2 : device.deviceClassId = alarmDeviceClassId
      · rw [setupDevice_alarm_eq s device h2 hv]; exact Or.inl rfl
      · rw [setupDevice_other_eq s device h1 h2 hv]; exact Or.inl rfl

theorem deviceRemoved_alarm_unregistered (s : DevicePluginDateTime) (myDevices : List Device)
    (device : Device) (hclass : device.deviceClassId = alarmDeviceClassId)
    (hreg : hashValue device.addr s.m_alarms = none) :
    deviceRemoved s myDevices device = none := by
  by_cases hl : myDevices.length = 0 <;>
    simp [deviceRemoved, hclass, hreg, hl, alarmDeviceClassId, todayDeviceClassId]

theorem deviceRemoved_todayDevice (s s2 : DevicePluginDateTime) (myDevices : List Device)
    (device : Device) (h : deviceRemoved s myDevices device = some s2) :
    s2.m_todayDevice = none ∨ s2.m_todayDevice = s.m_todayDevice := by
  by_cases h1 : device.deviceClassId = todayDeviceClassId
  · rw [deviceRemoved_today_eq s myDevices device h1] at h
    cases h
    left
    exact (startMonitoringAutoDevices_keeps _ myDevices).2.1
  · right
    by_cases h2 : device.deviceClassId = alarmDeviceClassId
    · cases hreg : hashValue device.addr s.m_alarms with
      | none =>
        rw [deviceRemoved_alarm_unregistered s myDevices device h2 hreg] at h
        cases h
      | some alarm =>
        rw [deviceRemoved_alarm_eq s myDevices device alarm h2 hreg] at h
        cases h
        rw [(startMonitoringAutoDevices_keeps _ myDevices).2.1]
        by_cases hl : myDevices.length = 0 <;> simp [hl]
    · rw [deviceRemoved_other_eq s myDevices device h1 h2] at h
      cases h
      rw [(startMonitoringAutoDevices_keeps _ myDevices).2.1]
      by_cases hl : myDevices.length = 0 <;> simp [hl]

/-- C20: the plugin tracks at most one date device. In every state in which
`m_todayDevice` is set, reachable or not, `setupDevice` of a today-class device
returns `Failure` and leaves the whole plugin as it was. `setupDevice` changes
`m_todayDevice` only when it accepts a today-class device while none is recorded,
and then records that device; `deviceRemoved` and the slots of the timer tick never
record a device. -/
theorem today_device_tracked_once (s : DevicePluginDateTime) (device : Device)
    (myDevices : List Device) (inp : TickInputs) :
    (s.m_todayDevice ≠ none → device.deviceClassId = todayDeviceClassId →
      setupDevice s device = (DeviceSetupStatus.DeviceSetupStatusFailure, s)) ∧
    ((setupDevice s device).2.m_todayDevice ≠ s.m_todayDevice →
      device.deviceClassId = todayDeviceClassId ∧
      (setupDevice s device).1 = DeviceSetupStatus.DeviceSetupStatusSuccess ∧
      s.m_todayDevice = none ∧
      (setupDevice s device).2.m_todayDevice = some device.addr) ∧
    (∀ s2, deviceRemoved s myDevices device = some s2 →
      s2.m_todayDevice = none ∨ s2.m_todayDevice = s.m_todayDevice) ∧
    (∀ s2, onTimeout inp s = some s2 → s2.m_todayDevice = s.m_todayDevice) := by
  refine ⟨?_, ?_, ?_, ?_⟩
  · intro hset hclass
    cases hv : s.m_timeZone.isValid with
    | false => exact setupDevice_of_invalid s device hv
    | true => exact setupDevice_today_taken s device hclass hv hset
  · intro hne
    rcases setupDevice_todayDevice_cases s device with h | h
    · exact absurd h hne
    · exact h
  · intro s2 h
    exact deviceRemoved_todayDevice s s2 myDevices device h
  · intro s2 h
    exact (sameConfiguration_onTimeout inp s s2 h).2.2

/-- Witness of C20: in Vienna the date device 4 is set up, a second date device is
refused, and after the removal of device 4 the second one is accepted. -/
theorem today_device_tracked_once_witness :
    setupDevice (setupDevice viennaPlugin dateDevice).2 { dateDevice with addr := 9 } =
      (DeviceSetupStatus.DeviceSetupStatusFailure, (setupDevice viennaPlugin dateDevice).2) ∧
    (setupDevice viennaPlugin dateDevice).2.m_todayDevice = some 4 ∧
    (∀ s2, deviceRemoved (setupDevice viennaPlugin dateDevice).2 [] dateDevice = some s2 →
      s2.m_todayDevice = none ∨
        s2.m_todayDevice = (setupDevice viennaPlugin dateDevice).2.m_todayDevice) :=
  ⟨(today_device_tracked_once (setupDevice viennaPlugin dateDevice).2
      { dateDevice with addr := 9 } [] (quietTick saturdayMorningLater)).1 (by decide) rfl,
    ((today_device_tracked_once viennaPlugin dateDevice []
      (quietTick saturdayMorningLater)).2.1 (by decide)).2.2.2,
    (today_device_tracked_once (setupDevice viennaPlugin dateDevice).2 dateDevice []
      (quietTick saturdayMorningLater)).2.2.1⟩

/-! ## The sun times -/

/-- C21, the code at the failing inputs: with the date device 4 recorded and the sun
times known, `onTimeDataUpdate` pushes the times to the alarm of device 6 and
returns without writing any of the five states of the date device; with no today
device recorded it calls `setStateValue` through the null pointer. -/
theorem onTimeDataUpdate_guard_is_inverted :
    sunnyPlugin.m_todayDevice = some 4 ∧
    (onTimeDataUpdate sunnyPlugin).map (fun s => s.stateValues) = some [] ∧
    (onTimeDataUpdate sunnyPlugin).map
        (fun s => (hashValue 6 s.m_alarms).map (fun a => (a.dusk, a.sunset))) =
      some (some (viennaTime 6 9, viennaTime 16 39)) ∧
    (onTimeDataUpdate sunnyPlugin).map
        (fun s => writtenStateValue 4 StateTypeId.sunsetStateTypeId s.stateValues) =
      some none ∧
    sunnyPluginWithoutDate.m_todayDevice = none ∧
    onTimeDataUpdate sunnyPluginWithoutDate = none := by
  decide

/-- The failed location reply of the samples is parsed, and its status is not
"success". -/
theorem failedLocation_status :
    sampleReplyInputs.fromJson failedLocationBody = some failedLocationDocument ∧
    (jsonValue failedLocationDocument "status").isWord "success" = false := by
  decide

/-- C22, the code at the failing input: the location reply reports the status
"fail", yet names the configured time zone; `processGeoLocationData` asks for the
sun times with the position of that reply. -/
theorem failed_location_triggers_time_request :
    (jsonValue failedLocationDocument "status").isWord "success" = false ∧
    processGeoLocationData sampleReplyInputs failedLocationBody sunnyPlugin =
      { sunnyPlugin with
        m_timeReplies := [21]
        emitted := sunnyPlugin.emitted ++
          [PluginSignal.networkManagerGet 21 "http://api.sunrise-sunset.org/json"
            [("lat", "48.2"), ("lng", "16.37"), ("date", "today")]] } := by
  decide

/-- What `processGeoLocationData` does for every body: nothing for a body that does
not parse or names another time zone than the configured one, and otherwise, whatever
the status, the request of the sun times with the position of the reply. -/
theorem processGeoLocationData_cases (inp : ReplyInputs) (data : String)
    (s : DevicePluginDateTime) :
    (inp.fromJson data = none → processGeoLocationData inp data s = s) ∧
    (∀ response, inp.fromJson data = some response →
      (s.m_timeZone.id ≠ (jsonValue response "timezone").toString →
        processGeoLocationData inp data s = s) ∧
      (s.m_timeZone.id = (jsonValue response "timezone").toString →
        processGeoLocationData inp data s =
          getTimes inp.timeReply (jsonValue response "lat").toString
            (jsonValue response "lon").toString s)) := by
  refine ⟨fun h => ?_, fun response h => ⟨fun hz => ?_, fun hz => ?_⟩⟩
  · simp [processGeoLocationData, h]
  · simp [processGeoLocationData, h, hz]
  · simp [processGeoLocationData, h, hz]

set_option maxRecDepth 8000 in
/-- The sample evaluated: the reply with the sun times sets the five members to the
times of the day in Vienna and emits `timeDataChanged` once. -/
theorem sample_sun_times_evaluated :
    (processTimesData sampleReplyInputs sunTimesBody sunnyPluginWithoutTimes).map
      (fun s => [s.m_dusk, s.m_sunrise, s.m_noon, s.m_dawn, s.m_sunset]) =
      some [viennaTime 6 9, viennaTime 6 41, viennaTime 11 40, viennaTime 17 10,
        viennaTime 16 39] ∧
    (processTimesData sampleReplyInputs sunTimesBody sunnyPluginWithoutTimes).map
      (fun s => s.emitted) = some [PluginSignal.timeDataChanged] := by
  decide

/-- A reply that is not a time reply of the plugin, or one whose HTTP status is not
200, changes none of the five sun times. -/
theorem networkManagerReplyReady_not_ok (inp : ReplyInputs) (reply : Nat) (status : Int)
    (data : String) (s : DevicePluginDateTime)
    (hloc : reply ∉ s.m_locationReplies) (hstatus : status ≠ 200) :
    ∃ s2, networkManagerReplyReady inp reply status data s = some s2 ∧
      s2.m_dusk = s.m_dusk ∧ s2.m_sunrise = s.m_sunrise ∧ s2.m_noon = s.m_noon ∧
      s2.m_dawn = s.m_dawn ∧ s2.m_sunset = s.m_sunset ∧ s2.emitted = s.emitted := by
  by_cases ht : reply ∈ s.m_timeReplies
  · exact ⟨{ s with m_timeReplies := s.m_timeReplies.filter (fun r => r != reply) },
      by simp [networkManagerReplyReady, hloc, ht, hstatus], rfl, rfl, rfl, rfl, rfl, rfl⟩
  · exact ⟨s, by simp [networkManagerReplyReady, hloc, ht], rfl, rfl, rfl, rfl, rfl, rfl⟩

end Nymea
